import Mathlib

/-!
Verification of the synthetic bank-payee record generator of
`newaugsver_clean.py` (class `BankDataGenerator`) and the column-removal
fault-injection scenario of `DM_bankfile_validate_pipeline.py`.

Shallow embedding conventions:
* Python strings are Lean `String`; slicing/padding is done on `String.data`
  (Python slices by characters).
* The process-wide seeded random source (`random` + `Faker`) is modelled as a
  deterministic stream `Env` indexed by a draw counter: `Env.nat` supplies the
  integer draws (`random.choice` indices, `random.randint`, `random.random`
  bucketed to percent, `Faker.numerify` digit blocks) and `Env.str` supplies
  free-text Faker draws (names, addresses, phone numbers, e-mails).
* `datetime` values are modelled as absolute day indices (`Nat`);
  `strftime('%Y-%m-%d')` is abstracted by `fmtDate`, an injective,
  order-preserving, fixed-width (10 character) numeral of the day index —
  ISO dates in the generator's supported range are order-isomorphic to day
  indices via a fixed-width string, and `strptime` is its exact inverse.
* The unbounded `while` loops of the identifier allocator are given an
  explicit fuel parameter; `none` means the loop did not finish within the
  fuel, and divergence is `none` for every fuel.
-/

/-- Python `s[:n]` (character based). -/
def strTake (s : String) (n : Nat) : String := ⟨s.data.take n⟩

/-- Python `str.ljust(w)`: pad on the right with spaces up to width `w`. -/
def ljust (s : String) (w : Nat) : String :=
  ⟨s.data ++ List.replicate (w - s.data.length) ' '⟩

/-- Python `str.zfill(w)`: pad on the left with `'0'` up to width `w`,
keeping a leading sign character in front of the inserted zeros. -/
def pyZfill (s : String) (w : Nat) : String :=
  match s.data with
  | [] => ⟨List.replicate w '0'⟩
  | c :: cs =>
    if c = '+' ∨ c = '-' then ⟨c :: (List.replicate (w - s.data.length) '0' ++ cs)⟩
    else ⟨List.replicate (w - s.data.length) '0' ++ s.data⟩

/-- Digit `d` (0–9) as a character. -/
def digCh (d : Nat) : Char := Char.ofNat (48 + d)

/-- Numeric value of a digit string (used for Python's `int(num_str)`). -/
def digitsVal (s : String) : Nat :=
  s.data.foldl (fun a c => 10 * a + (c.toNat - 48)) 0

/-- The `w` least-significant decimal digits of `n`, most significant first
(with leading zeros). -/
def padDigitsL : Nat → Nat → List Nat
  | 0, _ => []
  | w + 1, n => padDigitsL w (n / 10) ++ [n % 10]

/-- Fixed-width decimal numeral of `n` (width `w`, leading zeros). -/
def padN (w n : Nat) : String := ⟨(padDigitsL w n).map digCh⟩

/-- Decimal digits, most significant first, by structural recursion on a
fuel bound (`n + 1` is always enough fuel since `n / 10 < n`). -/
def reprDigitsAux : Nat → Nat → List Nat
  | 0, _ => []
  | fuel + 1, n => if n < 10 then [n] else reprDigitsAux fuel (n / 10) ++ [n % 10]

/-- Python `str(n)` for a natural number: minimal decimal digit list,
most significant first. -/
def reprDigits (n : Nat) : List Nat := reprDigitsAux (n + 1) n

/-- Python `str(n)` as a string. -/
def natRepr (n : Nat) : String := ⟨(reprDigits n).map digCh⟩

/-- `strftime('%Y-%m-%d')` abstracted: the day index as an injective,
order-preserving, fixed-width 10-character numeral. -/
def fmtDate (d : Nat) : String := padN 10 d

/-- `strptime(·, '%Y-%m-%d')` abstracted: decode a `fmtDate` string back to
its day index. -/
def dateVal (s : String) : Nat := digitsVal s

/-! ### Basic lemmas about the string helpers -/

theorem padDigitsL_length (w n : Nat) : (padDigitsL w n).length = w := by
  induction w generalizing n with
  | zero => rfl
  | succ w ih => simp [padDigitsL, ih]

theorem padDigitsL_lt (w n : Nat) : ∀ d ∈ padDigitsL w n, d < 10 := by
  induction w generalizing n with
  | zero => simp [padDigitsL]
  | succ w ih =>
    intro d hd
    simp only [padDigitsL, List.mem_append, List.mem_singleton] at hd
    rcases hd with h | h
    · exact ih _ _ h
    · omega

theorem reprDigitsAux_ne_nil (fuel n : Nat) (hf : 0 < fuel) :
    reprDigitsAux fuel n ≠ [] := by
  match fuel with
  | f + 1 =>
    unfold reprDigitsAux
    split
    · simp
    · simp

theorem reprDigits_ne_nil (n : Nat) : reprDigits n ≠ [] :=
  reprDigitsAux_ne_nil (n + 1) n (by omega)

theorem reprDigitsAux_lt (fuel n : Nat) : ∀ d ∈ reprDigitsAux fuel n, d < 10 := by
  induction fuel generalizing n with
  | zero => simp [reprDigitsAux]
  | succ f ih =>
    intro d hd
    unfold reprDigitsAux at hd
    split at hd
    · simp at hd; omega
    · simp only [List.mem_append, List.mem_singleton] at hd
      rcases hd with h | h
      · exact ih (n / 10) d h
      · omega

theorem reprDigits_lt (n : Nat) : ∀ d ∈ reprDigits n, d < 10 :=
  reprDigitsAux_lt (n + 1) n

theorem digCh_toNat {d : Nat} (h : d < 10) : (digCh d).toNat = 48 + d := by
  interval_cases d <;> decide

/-- Value of a most-significant-first digit list. -/
def valMS (L : List Nat) : Nat := L.foldl (fun a d => 10 * a + d) 0

theorem valMS_padDigitsL {w n : Nat} (h : n < 10 ^ w) :
    valMS (padDigitsL w n) = n := by
  induction w generalizing n with
  | zero => simp [padDigitsL, valMS]; omega
  | succ w ih =>
    have hdiv : n / 10 < 10 ^ w := by
      rw [Nat.div_lt_iff_lt_mul (by omega)]
      calc n < 10 ^ (w + 1) := h
        _ = 10 ^ w * 10 := by ring
    unfold valMS at ih ⊢
    simp only [padDigitsL, List.foldl_append, List.foldl_cons, List.foldl_nil]
    rw [ih hdiv]
    omega

theorem digitsVal_map_digCh (L : List Nat) (hL : ∀ d ∈ L, d < 10) :
    digitsVal ⟨L.map digCh⟩ = valMS L := by
  unfold digitsVal valMS
  simp only
  induction L using List.reverseRecOn with
  | nil => rfl
  | append_singleton L x ih =>
    simp only [List.map_append, List.map_cons, List.map_nil, List.foldl_append,
      List.foldl_cons, List.foldl_nil]
    rw [ih (fun d hd => hL d (List.mem_append_left _ hd))]
    have hx : x < 10 := hL x (List.mem_append_right _ (List.mem_singleton.mpr rfl))
    rw [digCh_toNat hx]
    omega

theorem dateVal_fmtDate {d : Nat} (h : d < 10 ^ 10) : dateVal (fmtDate d) = d := by
  unfold dateVal fmtDate padN
  rw [digitsVal_map_digCh _ (padDigitsL_lt 10 d), valMS_padDigitsL h]

theorem fmtDate_length (d : Nat) : (fmtDate d).data.length = 10 := by
  unfold fmtDate padN
  simp [padDigitsL_length]

theorem fmtDate_ne_empty (d : Nat) : fmtDate d ≠ "" := by
  intro h
  have := fmtDate_length d
  rw [h] at this
  simp at this

/-! ### Constraint table and the Constraint Enforcer (`validate_field`) -/

/-- `field_constraints` of `newaugsver_clean.py`: field name to
`(min_length, max_length)`. -/
def lookupC : String → Option (Nat × Nat)
  | "RecordOperation" => some (1, 1)
  | "OrganizationCode" => some (1, 1)
  | "OrganizationTINType" => some (3, 3)
  | "ProfitNonprofit" => some (1, 2)
  | "OrganizationNPI" => some (10, 10)
  | "PaymentMode" => some (3, 3)
  | "RoutingTransitNumber" => some (9, 9)
  | "AccountNumber" => some (1, 17)
  | "AccountType" => some (6, 6)
  | "EffectiveStartDate" => some (10, 10)
  | "EffectiveEndDate" => some (10, 10)
  | "AddressCode" => some (1, 10)
  | "AddressLine1" => some (1, 40)
  | "AddressLine2" => some (1, 40)
  | "CityName" => some (1, 25)
  | "State" => some (2, 2)
  | "PostalCode" => some (5, 10)
  | "ContactCode" => some (1, 2)
  | "ContactFirstName" => some (1, 20)
  | "ContactLastName" => some (1, 25)
  | "ContactTitle" => some (1, 23)
  | "ContactPhone" => some (1, 25)
  | "ContactFax" => some (1, 25)
  | "ContactOtherPhone" => some (1, 25)
  | "ContactEmail" => some (1, 99)
  | "OrganizationName" => some (1, 40)
  | "OrganizationLegalName" => some (1, 40)
  | "OrganizationTIN" => some (9, 9)
  | "PayeeID" => some (2, 9)
  | "OrganizationIdentifier" => some (3, 12)
  | _ => none

/-- Fields allowed to stay blank (Min Occurrence = 0) in `validate_field`. -/
def blankOk (f : String) : Bool :=
  f == "RoutingTransitNumber" || f == "AccountNumber" || f == "AccountType" ||
  f == "OrganizationTIN" || f == "EffectiveEndDate"

/-- Fields zero-left-padded (`str.zfill`) when too short in `validate_field`. -/
def zfillFld (f : String) : Bool :=
  f == "OrganizationNPI" || f == "RoutingTransitNumber" ||
  f == "AccountNumber" || f == "OrganizationTIN"

/-- `BankDataGenerator.validate_field`: the Constraint Enforcer. -/
def validate_field (field_name value : String) : String :=
  match lookupC field_name with
  | none => value
  | some (mn, mx) =>
    if blankOk field_name && value == "" then value
    else
      let v1 := if field_name == "OrganizationTINType" &&
                  !(value == "EIN" || value == "SSN" || value == "") then "EIN"
                else value
      let v2 := if mx < v1.data.length then strTake v1 mx else v1
      if v2.data.length < mn && !(v2 == "") then
        if zfillFld field_name then pyZfill v2 mn else ljust v2 mn
      else v2

/-! ### Lemmas about the Constraint Enforcer -/

theorem strTake_length (s : String) (n : Nat) :
    (strTake s n).data.length = min n s.data.length := by
  simp [strTake]

theorem ljust_length (s : String) (w : Nat) :
    (ljust s w).data.length = max w s.data.length := by
  simp [ljust]; omega

theorem pyZfill_length (s : String) (w : Nat) :
    (pyZfill s w).data.length = max w s.data.length := by
  unfold pyZfill
  split
  · rename_i h
    simp [h]
  · rename_i c cs h
    split
    · simp [h]; omega
    · simp [h]; omega

theorem str_ne_empty_iff (s : String) : s ≠ "" ↔ s.data ≠ [] := by
  constructor
  · intro h hdata
    exact h (by cases s; simp_all [String.ext_iff])
  · intro h hs
    rw [hs] at h
    exact h rfl

/-- Every constrained field has `1 ≤ min_length ≤ max_length`. -/
theorem lookupC_spec {f : String} {mn mx : Nat} (h : lookupC f = some (mn, mx)) :
    1 ≤ mn ∧ mn ≤ mx := by
  unfold lookupC at h
  split at h <;> cases h <;> omega

/-- Unfolding lemma for `validate_field` on a constrained field. -/
theorem validate_field_def {f : String} {mn mx : Nat}
    (hl : lookupC f = some (mn, mx)) (v : String) :
    validate_field f v =
      (if blankOk f && v == "" then v
       else
         let v1 := if f == "OrganizationTINType" &&
                     !(v == "EIN" || v == "SSN" || v == "") then "EIN" else v
         let v2 := if mx < v1.data.length then strTake v1 mx else v1
         if v2.data.length < mn && !(v2 == "") then
           if zfillFld f then pyZfill v2 mn else ljust v2 mn
         else v2) := by
  unfold validate_field
  rw [hl]

/-- Unfolding lemma for `validate_field` on an unconstrained field. -/
theorem validate_field_none {f : String} (hl : lookupC f = none) (v : String) :
    validate_field f v = v := by
  unfold validate_field
  rw [hl]

/-- The Constraint Enforcer passes the empty string through unchanged. -/
theorem validate_field_empty (f : String) : validate_field f "" = "" := by
  match hl : lookupC f with
  | none => exact validate_field_none hl ""
  | some (mn, mx) =>
    rw [validate_field_def hl]
    split
    · rfl
    · simp

/-- A value whose length is already within bounds is left unchanged
(for fields other than the enum-coerced `OrganizationTINType`). -/
theorem validate_field_inrange {f v : String} {mn mx : Nat}
    (hl : lookupC f = some (mn, mx)) (hf : f ≠ "OrganizationTINType")
    (h1 : mn ≤ v.data.length) (h2 : v.data.length ≤ mx) :
    validate_field f v = v := by
  rw [validate_field_def hl]
  have hb : (f == "OrganizationTINType") = false := by simp [hf]
  split
  · rfl
  · simp only [hb, Bool.false_and, Bool.false_eq_true, if_false]
    rw [if_neg (by omega : ¬ mx < v.data.length)]
    rw [if_neg]
    simp only [Bool.and_eq_true, decide_eq_true_eq, Bool.not_eq_true]
    intro hcon
    omega

theorem trunc_length_le (u : String) (mx : Nat) :
    (if mx < u.data.length then strTake u mx else u).data.length ≤ mx := by
  split
  · rw [strTake_length]; omega
  · omega

/-- The truncate-then-pad step keeps every non-empty result within
`min_length ≤ length ≤ max_length`. -/
theorem pad_step_length {mn mx : Nat} (hmx : mn ≤ mx) (zf : Bool) (v2 : String)
    (hlen : v2.data.length ≤ mx) :
    (if v2.data.length < mn && !(v2 == "") then
       (if zf then pyZfill v2 mn else ljust v2 mn) else v2) ≠ "" →
    mn ≤ (if v2.data.length < mn && !(v2 == "") then
       (if zf then pyZfill v2 mn else ljust v2 mn) else v2).data.length ∧
    (if v2.data.length < mn && !(v2 == "") then
       (if zf then pyZfill v2 mn else ljust v2 mn) else v2).data.length ≤ mx := by
  split
  · rename_i hcond
    simp only [Bool.and_eq_true, decide_eq_true_eq, Bool.not_eq_true,
      beq_eq_false_iff_ne] at hcond
    intro _
    split
    · rw [pyZfill_length]; omega
    · rw [ljust_length]; omega
  · rename_i hcond
    intro hne
    have hnlt : ¬ v2.data.length < mn := by
      intro hlt
      have hb2 : (v2 == "") = false := beq_eq_false_iff_ne.mpr hne
      exact hcond (by
        rw [hb2]
        simp only [Bool.not_false, Bool.and_true, decide_eq_true_eq]
        exact hlt)
    exact ⟨by omega, hlen⟩

/-- Length bounds after the Constraint Enforcer: every non-empty enforced
value satisfies `min_length ≤ length ≤ max_length`. -/
theorem validate_field_length {f v : String} {mn mx : Nat}
    (hl : lookupC f = some (mn, mx)) (hne : validate_field f v ≠ "") :
    mn ≤ (validate_field f v).data.length ∧
    (validate_field f v).data.length ≤ mx := by
  obtain ⟨hmn1, hmnmx⟩ := lookupC_spec hl
  rw [validate_field_def hl] at hne ⊢
  revert hne
  split
  · rename_i hcond
    simp only [Bool.and_eq_true, beq_iff_eq] at hcond
    intro hne
    exact absurd hcond.2 hne
  · dsimp only
    exact pad_step_length hmnmx _ _ (trunc_length_le _ mx)

theorem pyZfill_no_sign {s : String} (w : Nat) (hne : s ≠ "")
    (h : ∀ c ∈ s.data, c.isDigit) :
    pyZfill s w = ⟨List.replicate (w - s.data.length) '0' ++ s.data⟩ := by
  unfold pyZfill
  split
  · rename_i hd
    exact absurd ((str_ne_empty_iff s).not_left.mpr (by simp [hd])) (by simp [hne])
  · rename_i c cs hd
    have hc : c.isDigit := h c (by rw [hd]; exact List.mem_cons_self c cs)
    rw [if_neg, hd]
    intro hsign
    rcases hsign with h1 | h1 <;> (subst h1; revert hc; decide)

/-- On a zero-fill field, a short non-empty all-digit value is zero-left-padded
to `min_length`. -/
theorem validate_field_zfill {f v : String} {mn mx : Nat}
    (hl : lookupC f = some (mn, mx)) (hz : zfillFld f = true)
    (hne : v ≠ "") (hshort : v.data.length < mn)
    (hd : ∀ c ∈ v.data, c.isDigit) :
    validate_field f v = ⟨List.replicate (mn - v.data.length) '0' ++ v.data⟩ := by
  obtain ⟨hmn1, hmnmx⟩ := lookupC_spec hl
  have hbv : (v == "") = false := beq_eq_false_iff_ne.mpr hne
  have hT : (f == "OrganizationTINType") = false := by
    simp only [zfillFld, Bool.or_eq_true, beq_iff_eq] at hz
    rcases hz with ((h | h) | h) | h <;> subst h <;> decide
  rw [validate_field_def hl]
  rw [if_neg (by rw [hbv]; simp)]
  simp only [hT, Bool.false_and, Bool.false_eq_true, if_false]
  rw [if_neg (by omega : ¬ mx < v.data.length)]
  rw [if_pos (by rw [hbv]; simp only [Bool.not_false, Bool.and_true, decide_eq_true_eq]; exact hshort)]
  rw [if_pos hz]
  exact pyZfill_no_sign mn hne hd

/-- On any other constrained field except `OrganizationTINType`, a short
non-empty value is left-justified (space-padded on the right) to
`min_length`. -/
theorem validate_field_ljust {f v : String} {mn mx : Nat}
    (hl : lookupC f = some (mn, mx)) (hz : zfillFld f = false)
    (hT : f ≠ "OrganizationTINType") (hne : v ≠ "")
    (hshort : v.data.length < mn) :
    validate_field f v = ⟨v.data ++ List.replicate (mn - v.data.length) ' '⟩ := by
  obtain ⟨hmn1, hmnmx⟩ := lookupC_spec hl
  have hbv : (v == "") = false := beq_eq_false_iff_ne.mpr hne
  have hTb : (f == "OrganizationTINType") = false := beq_eq_false_iff_ne.mpr hT
  rw [validate_field_def hl]
  rw [if_neg (by rw [hbv]; simp)]
  simp only [hTb, Bool.false_and, Bool.false_eq_true, if_false]
  rw [if_neg (by omega : ¬ mx < v.data.length)]
  rw [if_pos (by rw [hbv]; simp only [Bool.not_false, Bool.and_true, decide_eq_true_eq]; exact hshort)]
  rw [if_neg (by simp [hz])]
  rfl

/-- `validate_field` on `OrganizationTINType` coerces out-of-enum values to
`"EIN"` and keeps enum members (and the empty string) unchanged. -/
theorem validate_field_tinType (v : String) :
    validate_field "OrganizationTINType" v =
      (if v == "EIN" || v == "SSN" || v == "" then v else "EIN") := by
  have hl : lookupC "OrganizationTINType" = some (3, 3) := by decide
  by_cases he : (v == "EIN" || v == "SSN" || v == "") = true
  · rw [if_pos he]
    simp only [Bool.or_eq_true, beq_iff_eq] at he
    rcases he with (h | h) | h <;> subst h <;> decide
  · have heb : (v == "EIN" || v == "SSN" || v == "") = false := by
      revert he; cases (v == "EIN" || v == "SSN" || v == "") <;> simp
    rw [if_neg he]
    rw [validate_field_def hl]
    rw [if_neg (by
      rw [show blankOk "OrganizationTINType" = false by decide]
      simp)]
    dsimp only
    rw [if_pos (show (("OrganizationTINType" == "OrganizationTINType") &&
        !(v == "EIN" || v == "SSN" || v == "")) = true by rw [heb]; decide)]
    decide

/-- C10: the Constraint Enforcer is idempotent: enforcing a field twice
gives the same result as enforcing it once, for every field name and every
string value. -/
theorem validate_field_idem (f v : String) :
    validate_field f (validate_field f v) = validate_field f v := by
  match hl : lookupC f with
  | none => rw [validate_field_none hl, validate_field_none hl]
  | some (mn, mx) =>
    by_cases hT : f = "OrganizationTINType"
    · subst hT
      by_cases he : (v == "EIN" || v == "SSN" || v == "") = true
      · have he2 := he
        simp only [Bool.or_eq_true, beq_iff_eq] at he2
        rcases he2 with (h | h) | h <;> subst h <;> decide
      · have h1 : validate_field "OrganizationTINType" v = "EIN" := by
          rw [validate_field_tinType v, if_neg he]
        rw [h1]
        decide
    · by_cases hres : validate_field f v = ""
      · rw [hres, validate_field_empty]
      · obtain ⟨hb1, hb2⟩ := validate_field_length hl hres
        exact validate_field_inrange hl hT hb1 hb2

/-! ### The generator: random stream, state, identifier allocation -/

/-- The seeded random source (`random` module + `Faker`), as a deterministic
stream indexed by a draw counter. -/
structure Env where
  nat : Nat → Nat
  str : Nat → String

/-- Mutable allocation state of `BankDataGenerator`: `used_r_identifiers`
and the three `used_payee_ids` namespaces. -/
structure GenState where
  usedR : List String
  usedM : List String
  usedD : List String
  usedP : List String
deriving DecidableEq, Repr

def initState : GenState := ⟨[], [], [], []⟩

/-- The MFR organization reference table.  `mfr_organizations.csv` is not in
the repository, so the generator's `FileNotFoundError` fallback list (already
within the PayeeID max length of 9, so the init-time truncation is a no-op)
is the code path modelled here. -/
def mfrOrgs : List (String × String) :=
  [("MFR001", "Pfizer Inc."), ("MFR002", "Johnson & Johnson"),
   ("MFR003", "Merck & Co., Inc.")]

def companyNames : List String :=
  ["Pfizer Inc.", "Johnson & Johnson", "Merck & Co., Inc.", "AbbVie Inc.",
   "Amgen Inc.", "Gilead Sciences, Inc.", "Biogen Inc.",
   "Regeneron Pharmaceuticals", "Moderna, Inc.", "Genentech",
   "Roche Holding AG", "Novartis AG", "GlaxoSmithKline (GSK)", "Sanofi S.A.",
   "AstraZeneca PLC", "Vertex Pharmaceuticals", "Alnylam Pharmaceuticals",
   "Bluebird Bio", "Sarepta Therapeutics", "CRISPR Therapeutics",
   "Beam Therapeutics"]

/-- `random.choice` over a `k`-element list: index drawn at position `p`. -/
def choiceIdx (env : Env) (p k : Nat) : Nat := env.nat p % k

/-- `random.randint(a, b)` (inclusive). -/
def randInt (env : Env) (p a b : Nat) : Nat := a + env.nat p % (b - a + 1)

/-- `random.random()` bucketed to a percentage (the generator only compares
it against two-decimal thresholds). -/
def randPct (env : Env) (p : Nat) : Nat := env.nat p % 100

/-- `Faker.numerify` with `w` digit placeholders. -/
def numerify (env : Env) (p w : Nat) : String := padN w (env.nat p % 10 ^ w)

/-- Candidate identifier tried at loop counter `c` inside
`generate_unique_id`: the initial `prefix + num_str` for `c = 0`,
then `prefix + str(int(num_str) + c)[:maxD]`. -/
def candAt (pre numStr : String) (maxD c : Nat) : String :=
  if c = 0 then pre ++ numStr
  else pre ++ strTake (natRepr (digitsVal numStr + c)) maxD

/-- The collision loop of `generate_unique_id`, with explicit fuel (the
source loops unboundedly; `none` = the loop has not finished within `fuel`
iterations). -/
def allocFuel (pre numStr : String) (maxD : Nat) (used : String → Bool) :
    Nat → Nat → Option String
  | 0, _ => none
  | f + 1, c =>
    if used (candAt pre numStr maxD c) then allocFuel pre numStr maxD used f (c + 1)
    else some (candAt pre numStr maxD c)

/-- `BankDataGenerator.generate_unique_id` for the M/D/P namespaces
(`payee_id_max = 9`): truncate the numeric core to fit, then run the
collision loop.  The caller adds the result to the relevant used-set. -/
def generate_unique_id (pre : String) (num : Nat) (used : String → Bool)
    (fuel : Nat) : Option String :=
  let maxD := 9 - pre.data.length
  allocFuel pre (strTake (natRepr num) maxD) maxD used fuel 0

/-- `BankDataGenerator.generate_unique_r_identifier`: draw 10-digit
identifiers (non-zero leading digit) until one is not in the used set. -/
def generate_unique_r_identifier (env : Env) :
    Nat → Nat → List String → Option (String × Nat × List String)
  | 0, _, _ => none
  | fuel + 1, p, used =>
    let ident : String :=
      ⟨digCh (1 + env.nat p % 9) :: (padDigitsL 9 (env.nat (p + 1) % 10 ^ 9)).map digCh⟩
    if used.contains ident then generate_unique_r_identifier env fuel (p + 2) used
    else some (ident, p + 2, ident :: used)

/-- `BankDataGenerator.generate_npi`: 10 digits, non-zero leading digit. -/
def generate_npi (env : Env) (p : Nat) : String :=
  ⟨digCh (1 + env.nat p % 9) :: (padDigitsL 9 (env.nat (p + 1) % 10 ^ 9)).map digCh⟩

/-- Result of the identifier/name selection step of `generate_row`. -/
structure Picked where
  ident : String
  name : String
  p : Nat
  st : GenState
deriving Repr

/-- The code-dependent identifier/name selection of `generate_row`
(lines 281–300 of `newaugsver_clean.py`). -/
def pickIdentifier (env : Env) (fuel : Nat) (code : String) (num p : Nat)
    (st : GenState) : Option Picked :=
  if code = "M" then
    let avail := mfrOrgs.filter (fun m => !(st.usedM.contains m.1))
    if avail.length ≠ 0 then
      let m := avail.getD (choiceIdx env p avail.length) ("", "")
      some ⟨m.1, m.2, p + 1, { st with usedM := m.1 :: st.usedM }⟩
    else
      match generate_unique_id "MFR" num (fun s => st.usedM.contains s) fuel with
      | none => none
      | some ident =>
        some ⟨ident, companyNames.getD (choiceIdx env p companyNames.length) "",
              p + 1, { st with usedM := ident :: st.usedM }⟩
  else if code = "R" then
    match generate_unique_r_identifier env fuel p st.usedR with
    | none => none
    | some (ident, p2, used2) =>
      some ⟨ident, companyNames.getD (choiceIdx env p2 companyNames.length) "",
            p2 + 1, { st with usedR := used2 }⟩
  else if code = "D" then
    match generate_unique_id "DISP" num (fun s => st.usedD.contains s) fuel with
    | none => none
    | some ident =>
      some ⟨ident, companyNames.getD (choiceIdx env p companyNames.length) "",
            p + 1, { st with usedD := ident :: st.usedD }⟩
  else
    match generate_unique_id "PC" num (fun s => st.usedP.contains s) fuel with
    | none => none
    | some ident =>
      some ⟨ident, companyNames.getD (choiceIdx env p companyNames.length) "",
            p + 1, { st with usedP := ident :: st.usedP }⟩

/-! ### Row assembly (`generate_row`) -/

/-- Banking details step of `generate_row` (blank for CHK). -/
structure Banking where
  routing : String
  account : String
  acctType : String
  p : Nat
deriving Repr

def genBanking (env : Env) (payment : String) (p : Nat) : Banking :=
  if payment = "EFT" then
    ⟨numerify env p 9, numerify env (p + 1) 6,
     ["CHKING", "SAVING"].getD (choiceIdx env (p + 2) 2) "", p + 3⟩
  else ⟨"", "", "", p⟩

/-- Address and contact-name fields of `generate_row` for non-R codes. -/
structure AddrC where
  addressCode : String
  line1 : String
  line2 : String
  city : String
  state : String
  postal : String
  firstName : String
  lastName : String
  p : Nat
deriving Repr

def genAddrContact (env : Env) (code payment : String) (p : Nat) : AddrC :=
  let ac : String × Nat :=
    if code = "M" then (["COR", ""].getD (choiceIdx env p 2) "", p + 1)
    else if code = "D" ∨ code = "P" then ("PMT", p)
    else
      -- only reachable for code R in the source, which clears these fields
      -- before this point; mirrored for completeness
      if payment = "CHK" then (["PMT", "COR"].getD (choiceIdx env p 2) "", p + 1)
      else if choiceIdx env p 2 = 0 then
        (["PMT", "COR"].getD (choiceIdx env (p + 1) 2) "", p + 2)
      else ("", p + 1)
  let addressCode := ac.1
  let p1 := ac.2
  let l1 : String × Nat := if addressCode ≠ "" then (env.str p1, p1 + 1) else ("", p1)
  let l2 : String × Nat :=
    if addressCode ≠ "" then
      (if choiceIdx env l1.2 2 = 0 then (env.str (l1.2 + 1), l1.2 + 2) else ("", l1.2 + 1))
    else ("", l1.2)
  let ci : String × Nat := if addressCode ≠ "" then (env.str l2.2, l2.2 + 1) else ("", l2.2)
  let stt : String × Nat := if addressCode ≠ "" then (env.str ci.2, ci.2 + 1) else ("", ci.2)
  let po : String × Nat := if addressCode ≠ "" then (env.str stt.2, stt.2 + 1) else ("", stt.2)
  ⟨addressCode, l1.1, l2.1, ci.1, stt.1, po.1, env.str po.2, env.str (po.2 + 1), po.2 + 2⟩

/-- `BankDataGenerator.generate_start_date`: always a date (as a day index);
95% the as-of date, else 1–7 days in the future. -/
def generate_start_date (env : Env) (asOf p : Nat) : Nat × Nat :=
  if randPct env p < 95 then (asOf, p + 1)
  else (asOf + randInt env (p + 1) 1 7, p + 2)

/-- `BankDataGenerator.generate_end_date`: optionally a date, distribution
depending on the record operation. -/
def generate_end_date (env : Env) (asOf : Nat) (recordOp : String) (p : Nat) :
    Option Nat × Nat :=
  if recordOp = "D" then
    if randPct env p < 10 then (none, p + 1)
    else if randPct env p < 60 then (some asOf, p + 1)
    else (some (asOf + randInt env (p + 1) 1 90), p + 2)
  else
    if randPct env p < 85 then (none, p + 1)
    else (some (asOf + randInt env (p + 1) 30 365), p + 2)

/-- Start/end-date step of `generate_row`, including the edge-case fix that
pushes an end date lying before the start date forward by 0–7 days. -/
structure Dates where
  startDay : Nat
  endDay : Option Nat
  p : Nat
deriving Repr

def genDates (env : Env) (asOf : Nat) (recordOp : String) (p : Nat) : Dates :=
  let sd := generate_start_date env asOf p
  let ed := generate_end_date env asOf recordOp sd.2
  match ed.1 with
  | some e =>
    if e < sd.1 then ⟨sd.1, some (sd.1 + randInt env ed.2 0 7), ed.2 + 1⟩
    else ⟨sd.1, some e, ed.2⟩
  | none => ⟨sd.1, none, ed.2⟩

/-- OrganizationTIN step: 9 digits for M/D/P (M has a 15% chance of the
`999999999` sentinel), blank for R. -/
def genTIN (env : Env) (code : String) (p : Nat) : String × Nat :=
  if code = "M" then
    let t := numerify env p 9
    if randPct env (p + 1) < 15 then ("999999999", p + 2) else (t, p + 2)
  else if code = "D" ∨ code = "P" then (numerify env p 9, p + 1)
  else ("", p)

/-- OrganizationNPI step: 20% blank, else a fresh NPI. -/
def genNPI (env : Env) (p : Nat) : String × Nat :=
  if randPct env p < 20 then ("", p + 1)
  else (generate_npi env (p + 1), p + 3)

/-- OrganizationLegalName step: the organization name for EIN, else a
synthesized person name truncated to 40 characters. -/
def genLegal (env : Env) (tinType orgName : String) (p : Nat) : String × Nat :=
  if tinType = "EIN" then (orgName, p)
  else (strTake ⟨(env.str p).data ++ ' ' :: (env.str (p + 1)).data⟩ 40, p + 2)

/-- ContactTitle step: 70% a job title (truncated to 23) for non-M/non-R
codes, blank otherwise. -/
def genTitle (env : Env) (code : String) (p : Nat) : String × Nat :=
  if code ≠ "M" ∧ code ≠ "R" then
    if randPct env p < 70 then (strTake (env.str (p + 1)) 23, p + 2)
    else ("", p + 1)
  else ("", p)

/-- A 50% optional phone number (ContactFax / ContactOtherPhone). -/
def genOptPhone (env : Env) (p : Nat) : String × Nat :=
  if choiceIdx env p 2 = 0 then (env.str (p + 1), p + 2) else ("", p + 1)

/-- One generated record: the ~30 named fields of the row dictionary built
by `generate_row`, in source order. -/
structure Row where
  RecordOperation : String
  OrganizationCode : String
  PayeeID : String
  OrganizationIdentifier : String
  OrganizationName : String
  OrganizationLegalName : String
  OrganizationTIN : String
  OrganizationTINType : String
  ProfitNonprofit : String
  OrganizationNPI : String
  PaymentMode : String
  RoutingTransitNumber : String
  AccountNumber : String
  AccountType : String
  EffectiveStartDate : String
  EffectiveEndDate : String
  AddressCode : String
  AddressLine1 : String
  AddressLine2 : String
  CityName : String
  State : String
  PostalCode : String
  ContactCode : String
  ContactFirstName : String
  ContactLastName : String
  ContactTitle : String
  ContactPhone : String
  ContactFax : String
  ContactOtherPhone : String
  ContactEmail : String
deriving DecidableEq, Repr, Inhabited

/-- The final loop of `generate_row`: every field through `validate_field`. -/
def validateRow (r : Row) : Row where
  RecordOperation := validate_field "RecordOperation" r.RecordOperation
  OrganizationCode := validate_field "OrganizationCode" r.OrganizationCode
  PayeeID := validate_field "PayeeID" r.PayeeID
  OrganizationIdentifier := validate_field "OrganizationIdentifier" r.OrganizationIdentifier
  OrganizationName := validate_field "OrganizationName" r.OrganizationName
  OrganizationLegalName := validate_field "OrganizationLegalName" r.OrganizationLegalName
  OrganizationTIN := validate_field "OrganizationTIN" r.OrganizationTIN
  OrganizationTINType := validate_field "OrganizationTINType" r.OrganizationTINType
  ProfitNonprofit := validate_field "ProfitNonprofit" r.ProfitNonprofit
  OrganizationNPI := validate_field "OrganizationNPI" r.OrganizationNPI
  PaymentMode := validate_field "PaymentMode" r.PaymentMode
  RoutingTransitNumber := validate_field "RoutingTransitNumber" r.RoutingTransitNumber
  AccountNumber := validate_field "AccountNumber" r.AccountNumber
  AccountType := validate_field "AccountType" r.AccountType
  EffectiveStartDate := validate_field "EffectiveStartDate" r.EffectiveStartDate
  EffectiveEndDate := validate_field "EffectiveEndDate" r.EffectiveEndDate
  AddressCode := validate_field "AddressCode" r.AddressCode
  AddressLine1 := validate_field "AddressLine1" r.AddressLine1
  AddressLine2 := validate_field "AddressLine2" r.AddressLine2
  CityName := validate_field "CityName" r.CityName
  State := validate_field "State" r.State
  PostalCode := validate_field "PostalCode" r.PostalCode
  ContactCode := validate_field "ContactCode" r.ContactCode
  ContactFirstName := validate_field "ContactFirstName" r.ContactFirstName
  ContactLastName := validate_field "ContactLastName" r.ContactLastName
  ContactTitle := validate_field "ContactTitle" r.ContactTitle
  ContactPhone := validate_field "ContactPhone" r.ContactPhone
  ContactFax := validate_field "ContactFax" r.ContactFax
  ContactOtherPhone := validate_field "ContactOtherPhone" r.ContactOtherPhone
  ContactEmail := validate_field "ContactEmail" r.ContactEmail

/-- The draw of `OrganizationCode` at the top of `generate_row`. -/
def codeOf (env : Env) (p0 : Nat) : String :=
  ["M", "D", "P", "R"].getD (choiceIdx env p0 4) ""

/-- The numeric identifier core drawn by `generate_row`: a random digit
length in [2, 9], then a uniform integer of that digit length. -/
def numOf (env : Env) (p0 : Nat) : Nat :=
  randInt env (p0 + 2) (10 ^ (randInt env (p0 + 1) 2 9 - 1))
    (10 ^ randInt env (p0 + 1) 2 9 - 1)

/-- The end-date field rendering of `generate_row`: the formatted date when
present, the empty string otherwise. -/
def endDateStr : Option Nat → String
  | some e => fmtDate e
  | none => ""

/-- Everything `generate_row` does after the identifier/name selection:
payee, payment mode, banking, the R-record clearing, address/contact,
operation, dates, TIN, TIN type, profit flag, NPI, legal name, title, final
contact fields, and the validation pass.  Returns the row and the next draw
position. -/
def assembleRow (env : Env) (asOf : Nat) (code ident orgName : String)
    (num p : Nat) : Row × Nat :=
    let pe : String × Nat :=
      if code = "M" ∨ code = "D" ∨ code = "P" then (ident, p)
      else
        let payee0 : String := "DISP" ++ natRepr num
        if payee0 = ident then
          (⟨payee0.data ++ [digCh (env.nat p % 10)]⟩, p + 1)
        else (payee0, p)
    let payee := pe.1
    let pm : String × Nat :=
      if code = "M" then ("EFT", pe.2)
      else (["EFT", "CHK"].getD (choiceIdx env pe.2 2) "", pe.2 + 1)
    let payment := pm.1
    let bk := genBanking env payment pm.2
    let routing := if code = "R" then "" else bk.routing
    let account := if code = "R" then "" else bk.account
    let acctType := if code = "R" then "" else bk.acctType
    let ad : AddrC :=
      if code = "R" then ⟨"", "", "", "", "", "", "", "", bk.p⟩
      else genAddrContact env code payment bk.p
    let ro : String × Nat := (["A", "D"].getD (choiceIdx env ad.p 2) "", ad.p + 1)
    let recordOp := ro.1
    let dt := genDates env asOf recordOp ro.2
    let ti := genTIN env code dt.p
    let tt : String × Nat :=
      if code = "R" then ("", ti.2)
      else (["EIN", "SSN"].getD (choiceIdx env ti.2 2) "", ti.2 + 1)
    let tinType := tt.1
    let pr : String × Nat :=
      if code = "D" ∨ code = "P" then (["P", "NP"].getD (choiceIdx env tt.2 2) "", tt.2 + 1)
      else if code = "M" then (["", "P", "NP"].getD (choiceIdx env tt.2 3) "", tt.2 + 1)
      else ("", tt.2)
    let np := genNPI env pr.2
    let lg := genLegal env tinType orgName np.2
    let tl := genTitle env code lg.2
    let p9 := tl.2
    let contactCode := ["AO", "DO"].getD (choiceIdx env p9 2) ""
    let phone := env.str (p9 + 1)
    let fx := genOptPhone env (p9 + 2)
    let ot := genOptPhone env fx.2
    let email := env.str ot.2
    (validateRow {
      RecordOperation := recordOp
      OrganizationCode := code
      PayeeID := payee
      OrganizationIdentifier := ident
      OrganizationName := strTake orgName 40
      OrganizationLegalName := lg.1
      OrganizationTIN := ti.1
      OrganizationTINType := tinType
      ProfitNonprofit := pr.1
      OrganizationNPI := np.1
      PaymentMode := payment
      RoutingTransitNumber := routing
      AccountNumber := account
      AccountType := acctType
      EffectiveStartDate := fmtDate dt.startDay
      EffectiveEndDate := endDateStr dt.endDay
      AddressCode := ad.addressCode
      AddressLine1 := ad.line1
      AddressLine2 := ad.line2
      CityName := ad.city
      State := ad.state
      PostalCode := ad.postal
      ContactCode := contactCode
      ContactFirstName := ad.firstName
      ContactLastName := ad.lastName
      ContactTitle := tl.1
      ContactPhone := phone
      ContactFax := fx.1
      ContactOtherPhone := ot.1
      ContactEmail := email
    }, ot.2 + 1)

/-- `BankDataGenerator.generate_row`.  Returns the validated row, the next
draw position and the updated allocation state, or `none` when the
identifier-allocation loop did not finish within `fuel`. -/
def generate_row (env : Env) (asOf fuel p0 : Nat) (st : GenState) :
    Option (Row × Nat × GenState) :=
  match pickIdentifier env fuel (codeOf env p0) (numOf env p0) (p0 + 3) st with
  | none => none
  | some pk =>
    let rp := assembleRow env asOf (codeOf env p0) pk.ident pk.name (numOf env p0) pk.p
    some (rp.1, rp.2, pk.st)

/-- `BankDataGenerator.generate_data`: `n` rows, threading the draw position
and allocation state. -/
def generate_data (env : Env) (asOf fuel : Nat) :
    Nat → Nat → GenState → Option (List Row × Nat × GenState)
  | 0, p, st => some ([], p, st)
  | n + 1, p, st =>
    match generate_row env asOf fuel p st with
    | none => none
    | some (r, p1, st1) =>
      match generate_data env asOf fuel n p1 st1 with
      | none => none
      | some (rs, p2, st2) => some (r :: rs, p2, st2)

/-! ### Emitted tables, blank-as-null mode, and the fault injector's
column removal -/

/-- Column order of the generated row dictionary (pandas keeps insertion
order, so this is the emitted column order). -/
def headerCols : List String :=
  ["RecordOperation", "OrganizationCode", "PayeeID", "OrganizationIdentifier",
   "OrganizationName", "OrganizationLegalName", "OrganizationTIN",
   "OrganizationTINType", "ProfitNonprofit", "OrganizationNPI", "PaymentMode",
   "RoutingTransitNumber", "AccountNumber", "AccountType",
   "EffectiveStartDate", "EffectiveEndDate", "AddressCode", "AddressLine1",
   "AddressLine2", "CityName", "State", "PostalCode", "ContactCode",
   "ContactFirstName", "ContactLastName", "ContactTitle", "ContactPhone",
   "ContactFax", "ContactOtherPhone", "ContactEmail"]

/-- The cell values of a row, in `headerCols` order. -/
def Row.cells (r : Row) : List String :=
  [r.RecordOperation, r.OrganizationCode, r.PayeeID, r.OrganizationIdentifier,
   r.OrganizationName, r.OrganizationLegalName, r.OrganizationTIN,
   r.OrganizationTINType, r.ProfitNonprofit, r.OrganizationNPI, r.PaymentMode,
   r.RoutingTransitNumber, r.AccountNumber, r.AccountType,
   r.EffectiveStartDate, r.EffectiveEndDate, r.AddressCode, r.AddressLine1,
   r.AddressLine2, r.CityName, r.State, r.PostalCode, r.ContactCode,
   r.ContactFirstName, r.ContactLastName, r.ContactTitle, r.ContactPhone,
   r.ContactFax, r.ContactOtherPhone, r.ContactEmail]

/-- Blank-as-null emission: after validation, empty strings become nulls
when the option is enabled (end of `generate_row`). -/
def Row.emit (blankAsNull : Bool) (r : Row) : List (Option String) :=
  r.cells.map (fun v => if blankAsNull && v == "" then none else some v)

/-- An emitted table: named columns and string cells (one list per row). -/
structure Table where
  cols : List String
  cells : List (List String)
deriving DecidableEq, Repr

def toTable (rows : List Row) : Table := ⟨headerCols, rows.map Row.cells⟩

/-- `df.drop(columns=[c])` guarded by `if col in df.columns` as in
`run_missing_column_scenario`. -/
def dropColumn (t : Table) (c : String) : Table :=
  if t.cols.contains c then
    let i := t.cols.indexOf c
    ⟨t.cols.eraseIdx i, t.cells.map (fun r => r.eraseIdx i)⟩
  else t

/-- `run_missing_column_scenario`'s loop: drop each named column if present. -/
def dropColumns (cs : List String) (t : Table) : Table := cs.foldl dropColumn t

/-- The seeded random stream.  Stand-in for `random.seed(seed)` +
`Faker.seed(seed)`: a fixed deterministic function of the seed and the draw
index (the actual Mersenne-Twister stream is out of scope; every claim below
is either universally quantified over the stream or concerns determinism,
which only needs the stream to be a function of the seed). -/
def envOfSeed (seed : Nat) : Env where
  nat := fun i => (seed * 1103515245 + i * 12345 + 12345) % 2147483648
  str := fun i => "F" ++ natRepr ((seed + i) % 1000)

/-- `Generate(rowCount, seed, asOfDate?, blankAsNull?)`: build the generator
(`__init__`: the as-of date defaults to `datetime.now()`, modelled by the
`now` parameter, when no as-of date is supplied) and emit the table. -/
def generateTable (numRows seed : Nat) (asOfOpt : Option Nat)
    (blankAsNull : Bool) (fuel now : Nat) : Option (List (List (Option String))) :=
  match generate_data (envOfSeed seed) (asOfOpt.getD now) fuel numRows 0 initState with
  | none => none
  | some (rows, _, _) => some (rows.map (Row.emit blankAsNull))

/-! ### Lemmas about draws, numerify and the identifier allocator -/

theorem choice2_cases (env : Env) (p : Nat) (a b : String) :
    [a, b].getD (choiceIdx env p 2) "" = a ∨ [a, b].getD (choiceIdx env p 2) "" = b := by
  unfold choiceIdx
  rcases Nat.mod_two_eq_zero_or_one (env.nat p) with h | h <;> rw [h] <;> simp

theorem codeOf_cases (env : Env) (p0 : Nat) :
    codeOf env p0 = "M" ∨ codeOf env p0 = "D" ∨ codeOf env p0 = "P" ∨
    codeOf env p0 = "R" := by
  unfold codeOf choiceIdx
  have h : env.nat p0 % 4 = 0 ∨ env.nat p0 % 4 = 1 ∨ env.nat p0 % 4 = 2 ∨
      env.nat p0 % 4 = 3 := by omega
  rcases h with h | h | h | h <;> rw [h] <;> simp

theorem digCh_isDigit {d : Nat} (h : d < 10) : (digCh d).isDigit = true := by
  interval_cases d <;> decide

theorem numerify_length (env : Env) (p w : Nat) :
    (numerify env p w).data.length = w := by
  unfold numerify padN
  simp [padDigitsL_length]

theorem numerify_digits (env : Env) (p w : Nat) :
    ∀ c ∈ (numerify env p w).data, c.isDigit = true := by
  unfold numerify padN
  intro c hc
  simp only [List.mem_map] at hc
  obtain ⟨d, hd, rfl⟩ := hc
  exact digCh_isDigit (padDigitsL_lt _ _ d hd)

theorem natRepr_ne_nil (n : Nat) : (natRepr n).data ≠ [] := by
  unfold natRepr
  simp [reprDigits_ne_nil]

/-- Shape of a successful allocator-loop result: some candidate
`prefix ++ t` with `t` a non-empty string of at most `maxD` characters,
not in the used set. -/
theorem allocFuel_spec {pre numStr : String} {maxD : Nat} {used : String → Bool}
    (hn : numStr.data.length ≤ maxD) (hne : numStr.data ≠ []) (hmd : 0 < maxD) :
    ∀ {fuel c s}, allocFuel pre numStr maxD used fuel c = some s →
      used s = false ∧ ∃ t : String, s = pre ++ t ∧ t.data.length ≤ maxD ∧
        t.data ≠ [] := by
  intro fuel
  induction fuel with
  | zero => intro c s h; exact absurd h (by simp [allocFuel])
  | succ f ih =>
    intro c s h
    unfold allocFuel at h
    split at h
    · exact ih h
    · rename_i hused
      have hs : s = candAt pre numStr maxD c := by
        simpa using h.symm
      subst hs
      refine ⟨by simpa using hused, ?_⟩
      unfold candAt
      split
      · exact ⟨numStr, rfl, hn, hne⟩
      · refine ⟨strTake (natRepr (digitsVal numStr + c)) maxD, rfl, ?_, ?_⟩
        · simp [strTake]
        · simp [strTake, List.take_eq_nil_iff, natRepr_ne_nil]
          omega

/-- Shape of a successful `generate_unique_id` result. -/
theorem generate_unique_id_spec {pre : String} {num : Nat} {used : String → Bool}
    {fuel : Nat} {s : String} (hpre : pre.data.length < 9)
    (h : generate_unique_id pre num used fuel = some s) :
    used s = false ∧ ∃ t : String, s = pre ++ t ∧
      t.data.length ≤ 9 - pre.data.length ∧ t.data ≠ [] := by
  unfold generate_unique_id at h
  refine allocFuel_spec ?_ ?_ ?_ h
  · simp [strTake]
  · simp [strTake, List.take_eq_nil_iff, natRepr_ne_nil]
    have hL : pre.length = pre.data.length := rfl
    omega
  · omega

theorem append_data (a b : String) : (a ++ b).data = a.data ++ b.data := rfl

/-- Length bounds of a `generate_unique_id` result. -/
theorem generate_unique_id_length {pre : String} {num : Nat}
    {used : String → Bool} {fuel : Nat} {s : String} (hpre : pre.data.length < 9)
    (h : generate_unique_id pre num used fuel = some s) :
    pre.data.length + 1 ≤ s.data.length ∧ s.data.length ≤ 9 := by
  obtain ⟨-, t, rfl, ht1, ht2⟩ := generate_unique_id_spec hpre h
  rw [append_data, List.length_append]
  have : t.data.length ≠ 0 := fun h0 => ht2 (List.length_eq_zero.mp h0)
  omega

theorem list_getD_mem {α : Type} (l : List α) (i : Nat) (d : α)
    (h : i < l.length) : l.getD i d ∈ l := by
  rw [List.getD_eq_getElem l d h]
  exact List.getElem_mem h

theorem mfr_len : ∀ m ∈ mfrOrgs, m.1.data.length = 6 := by decide

theorem mfr_head : ∀ m ∈ mfrOrgs, m.1.data.head? = some 'M' := by decide

/-- Shape of a successful R-identifier draw: a 10-character identifier not
previously used, consed onto the used set. -/
theorem generate_unique_r_identifier_spec {env : Env} :
    ∀ {fuel p : Nat} {used : List String} {s : String} {p2 : Nat}
      {used2 : List String},
      generate_unique_r_identifier env fuel p used = some (s, p2, used2) →
      s.data.length = 10 ∧ used2 = s :: used ∧ used.contains s = false := by
  intro fuel
  induction fuel with
  | zero =>
    intro p used s p2 used2 h
    exact absurd h (by simp [generate_unique_r_identifier])
  | succ f ih =>
    intro p used s p2 used2 h
    unfold generate_unique_r_identifier at h
    dsimp only at h
    split at h
    · exact ih h
    · rename_i hused
      simp only [Option.some.injEq, Prod.mk.injEq] at h
      obtain ⟨rfl, -, rfl⟩ := h
      refine ⟨?_, rfl, by simpa using hused⟩
      simp [padDigitsL_length]

theorem pickIdentifier_M_spec {env : Env} {fuel num p : Nat} {st : GenState}
    {pk : Picked} (h : pickIdentifier env fuel "M" num p st = some pk) :
    st.usedM.contains pk.ident = false ∧
    pk.st.usedM = pk.ident :: st.usedM ∧ pk.st.usedD = st.usedD ∧
    pk.st.usedP = st.usedP ∧ pk.st.usedR = st.usedR ∧
    pk.ident.data.head? = some 'M' ∧
    3 ≤ pk.ident.data.length ∧ pk.ident.data.length ≤ 9 := by
  unfold pickIdentifier at h
  rw [if_pos rfl] at h
  dsimp only at h
  by_cases hav : (List.filter (fun m => !st.usedM.contains m.1) mfrOrgs).length ≠ 0
  · rw [if_pos hav] at h
    simp only [Option.some.injEq] at h
    subst h
    have hlt : choiceIdx env p (List.filter (fun m => !st.usedM.contains m.1) mfrOrgs).length <
        (List.filter (fun m => !st.usedM.contains m.1) mfrOrgs).length :=
      Nat.mod_lt _ (by omega)
    have hmem := list_getD_mem _ _ ("", "") hlt
    rw [List.mem_filter] at hmem
    obtain ⟨hmem, hpred⟩ := hmem
    refine ⟨by simpa using hpred, rfl, rfl, rfl, rfl, mfr_head _ hmem, ?_, ?_⟩
    · rw [mfr_len _ hmem]; omega
    · rw [mfr_len _ hmem]; omega
  · rw [if_neg hav] at h
    split at h
    · exact absurd h (by simp)
    · rename_i ident halloc
      simp only [Option.some.injEq] at h
      subst h
      obtain ⟨hu, t, hident, ht1, ht2⟩ :=
        generate_unique_id_spec (by decide) halloc
      obtain ⟨hl1, hl2⟩ := generate_unique_id_length (by decide) halloc
      have hpl : ("MFR" : String).data.length = 3 := by decide
      rw [hpl] at hl1
      refine ⟨hu, rfl, rfl, rfl, rfl, ?_, by dsimp only; omega, hl2⟩
      rw [hident, append_data]
      rfl

theorem pickIdentifier_D_spec {env : Env} {fuel num p : Nat} {st : GenState}
    {pk : Picked} (h : pickIdentifier env fuel "D" num p st = some pk) :
    st.usedD.contains pk.ident = false ∧
    pk.st.usedD = pk.ident :: st.usedD ∧ pk.st.usedM = st.usedM ∧
    pk.st.usedP = st.usedP ∧ pk.st.usedR = st.usedR ∧
    pk.ident.data.head? = some 'D' ∧
    3 ≤ pk.ident.data.length ∧ pk.ident.data.length ≤ 9 := by
  unfold pickIdentifier at h
  rw [if_neg (by decide), if_neg (by decide), if_pos rfl] at h
  split at h
  · exact absurd h (by simp)
  · rename_i ident halloc
    simp only [Option.some.injEq] at h
    subst h
    obtain ⟨hu, t, hident, ht1, ht2⟩ := generate_unique_id_spec (by decide) halloc
    obtain ⟨hl1, hl2⟩ := generate_unique_id_length (by decide) halloc
    have hpl : ("DISP" : String).data.length = 4 := by decide
    rw [hpl] at hl1
    refine ⟨hu, rfl, rfl, rfl, rfl, ?_, by dsimp only; omega, hl2⟩
    rw [hident, append_data]
    rfl

theorem pickIdentifier_P_spec {env : Env} {fuel num p : Nat} {st : GenState}
    {pk : Picked} (h : pickIdentifier env fuel "P" num p st = some pk) :
    st.usedP.contains pk.ident = false ∧
    pk.st.usedP = pk.ident :: st.usedP ∧ pk.st.usedM = st.usedM ∧
    pk.st.usedD = st.usedD ∧ pk.st.usedR = st.usedR ∧
    pk.ident.data.head? = some 'P' ∧
    3 ≤ pk.ident.data.length ∧ pk.ident.data.length ≤ 9 := by
  unfold pickIdentifier at h
  rw [if_neg (by decide), if_neg (by decide), if_neg (by decide)] at h
  split at h
  · exact absurd h (by simp)
  · rename_i ident halloc
    simp only [Option.some.injEq] at h
    subst h
    obtain ⟨hu, t, hident, ht1, ht2⟩ := generate_unique_id_spec (by decide) halloc
    obtain ⟨hl1, hl2⟩ := generate_unique_id_length (by decide) halloc
    have hpl : ("PC" : String).data.length = 2 := by decide
    rw [hpl] at hl1
    refine ⟨hu, rfl, rfl, rfl, rfl, ?_, by dsimp only; omega, hl2⟩
    rw [hident, append_data]
    rfl

theorem pickIdentifier_R_spec {env : Env} {fuel num p : Nat} {st : GenState}
    {pk : Picked} (h : pickIdentifier env fuel "R" num p st = some pk) :
    pk.st.usedM = st.usedM ∧ pk.st.usedD = st.usedD ∧
    pk.st.usedP = st.usedP ∧ pk.ident.data.length = 10 := by
  unfold pickIdentifier at h
  rw [if_neg (by decide), if_pos rfl] at h
  split at h
  · exact absurd h (by simp)
  · rename_i ident p2 used2 hr
    simp only [Option.some.injEq] at h
    subst h
    obtain ⟨hlen, -, -⟩ := generate_unique_r_identifier_spec hr
    exact ⟨rfl, rfl, rfl, hlen⟩

/-- Destructuring a successful `generate_row`. -/
theorem generate_row_cases {env : Env} {asOf fuel p0 : Nat} {st : GenState}
    {row : Row} {p1 : Nat} {st1 : GenState}
    (h : generate_row env asOf fuel p0 st = some (row, p1, st1)) :
    ∃ pk, pickIdentifier env fuel (codeOf env p0) (numOf env p0) (p0 + 3) st = some pk ∧
      row = (assembleRow env asOf (codeOf env p0) pk.ident pk.name (numOf env p0) pk.p).1 ∧
      st1 = pk.st := by
  unfold generate_row at h
  split at h
  · exact absurd h (by simp)
  · rename_i pk hp
    simp only [Option.some.injEq, Prod.mk.injEq] at h
    exact ⟨pk, hp, h.1.symm, h.2.2.symm⟩

/-! ### Date-generation lemmas -/

theorem validate_start_fmt (d : Nat) :
    validate_field "EffectiveStartDate" (fmtDate d) = fmtDate d := by
  have hl : lookupC "EffectiveStartDate" = some (10, 10) := by decide
  exact validate_field_inrange hl (by decide)
    (by have := fmtDate_length d; omega) (by have := fmtDate_length d; omega)

theorem validate_end_fmt (d : Nat) :
    validate_field "EffectiveEndDate" (fmtDate d) = fmtDate d := by
  have hl : lookupC "EffectiveEndDate" = some (10, 10) := by decide
  exact validate_field_inrange hl (by decide)
    (by have := fmtDate_length d; omega) (by have := fmtDate_length d; omega)

theorem validate_choice2 {f a b : String} (hfa : validate_field f a = a)
    (hfb : validate_field f b = b) (env : Env) (p : Nat) :
    validate_field f ([a, b].getD (choiceIdx env p 2) "") = a ∨
    validate_field f ([a, b].getD (choiceIdx env p 2) "") = b := by
  rcases choice2_cases env p a b with h | h <;> rw [h]
  · exact Or.inl hfa
  · exact Or.inr hfb

theorem generate_start_date_spec (env : Env) (asOf p : Nat) :
    asOf ≤ (generate_start_date env asOf p).1 ∧
    (generate_start_date env asOf p).1 ≤ asOf + 7 := by
  unfold generate_start_date randInt
  split
  · simp
  · dsimp only
    omega

theorem generate_end_date_spec (env : Env) (asOf : Nat) (ro : String) (p : Nat) :
    ∀ e, (generate_end_date env asOf ro p).1 = some e →
      asOf ≤ e ∧ e ≤ asOf + 365 := by
  unfold generate_end_date randInt randPct
  intro e he
  split at he
  · split at he
    · simp at he
    · split at he
      · simp only [Option.some.injEq] at he
        omega
      · simp only [Option.some.injEq] at he
        omega
  · split at he
    · simp at he
    · simp only [Option.some.injEq] at he
      omega

theorem genDates_spec (env : Env) (asOf : Nat) (ro : String) (p : Nat) :
    asOf ≤ (genDates env asOf ro p).startDay ∧
    (genDates env asOf ro p).startDay ≤ asOf + 7 ∧
    (∀ e, (genDates env asOf ro p).endDay = some e →
      (genDates env asOf ro p).startDay ≤ e ∧ e ≤ asOf + 372) := by
  obtain ⟨hs1, hs2⟩ := generate_start_date_spec env asOf p
  have hend := generate_end_date_spec env asOf ro (generate_start_date env asOf p).2
  unfold genDates
  dsimp only
  split
  · rename_i e heq
    obtain ⟨he1, he2⟩ := hend e heq
    split
    · rename_i hlt
      refine ⟨hs1, hs2, ?_⟩
      intro e2 he2'
      dsimp only at he2' ⊢
      simp only [Option.some.injEq] at he2'
      unfold randInt at he2'
      omega
    · rename_i hge
      refine ⟨hs1, hs2, ?_⟩
      intro e2 he2'
      dsimp only at he2' ⊢
      simp only [Option.some.injEq] at he2'
      omega
  · rename_i heq
    exact ⟨hs1, hs2, by simp⟩

/-! ### Field-level facts about the assembled row -/

theorem assembleRow_ids_M (env : Env) (asOf : Nat) (ident nm : String) (num p : Nat) :
    ((assembleRow env asOf "M" ident nm num p).1).OrganizationCode = "M" ∧
    ((assembleRow env asOf "M" ident nm num p).1).PayeeID = validate_field "PayeeID" ident ∧
    ((assembleRow env asOf "M" ident nm num p).1).OrganizationIdentifier =
      validate_field "OrganizationIdentifier" ident := by
  refine ⟨?_, ?_, ?_⟩ <;> simp [assembleRow, validateRow] <;> decide

theorem assembleRow_ids_D (env : Env) (asOf : Nat) (ident nm : String) (num p : Nat) :
    ((assembleRow env asOf "D" ident nm num p).1).OrganizationCode = "D" ∧
    ((assembleRow env asOf "D" ident nm num p).1).PayeeID = validate_field "PayeeID" ident ∧
    ((assembleRow env asOf "D" ident nm num p).1).OrganizationIdentifier =
      validate_field "OrganizationIdentifier" ident := by
  refine ⟨?_, ?_, ?_⟩ <;> simp [assembleRow, validateRow] <;> decide

theorem assembleRow_ids_P (env : Env) (asOf : Nat) (ident nm : String) (num p : Nat) :
    ((assembleRow env asOf "P" ident nm num p).1).OrganizationCode = "P" ∧
    ((assembleRow env asOf "P" ident nm num p).1).PayeeID = validate_field "PayeeID" ident ∧
    ((assembleRow env asOf "P" ident nm num p).1).OrganizationIdentifier =
      validate_field "OrganizationIdentifier" ident := by
  refine ⟨?_, ?_, ?_⟩ <;> simp [assembleRow, validateRow] <;> decide

theorem assembleRow_ids_R (env : Env) (asOf : Nat) (ident nm : String) (num p : Nat) :
    ((assembleRow env asOf "R" ident nm num p).1).OrganizationCode = "R" ∧
    ((assembleRow env asOf "R" ident nm num p).1).OrganizationIdentifier =
      validate_field "OrganizationIdentifier" ident := by
  refine ⟨?_, ?_⟩ <;> simp [assembleRow, validateRow] <;> decide

/-- For an R-code row, the banking, address, TIN and most contact fields
are cleared before validation and stay blank. -/
theorem assembleRow_R_blanks (env : Env) (asOf : Nat) (ident nm : String)
    (num p : Nat) :
    ((assembleRow env asOf "R" ident nm num p).1).RoutingTransitNumber = "" ∧
    ((assembleRow env asOf "R" ident nm num p).1).AccountNumber = "" ∧
    ((assembleRow env asOf "R" ident nm num p).1).AccountType = "" ∧
    ((assembleRow env asOf "R" ident nm num p).1).AddressCode = "" ∧
    ((assembleRow env asOf "R" ident nm num p).1).AddressLine1 = "" ∧
    ((assembleRow env asOf "R" ident nm num p).1).AddressLine2 = "" ∧
    ((assembleRow env asOf "R" ident nm num p).1).CityName = "" ∧
    ((assembleRow env asOf "R" ident nm num p).1).State = "" ∧
    ((assembleRow env asOf "R" ident nm num p).1).PostalCode = "" ∧
    ((assembleRow env asOf "R" ident nm num p).1).ContactFirstName = "" ∧
    ((assembleRow env asOf "R" ident nm num p).1).ContactLastName = "" ∧
    ((assembleRow env asOf "R" ident nm num p).1).OrganizationTIN = "" ∧
    ((assembleRow env asOf "R" ident nm num p).1).OrganizationTINType = "" ∧
    ((assembleRow env asOf "R" ident nm num p).1).ProfitNonprofit = "" ∧
    ((assembleRow env asOf "R" ident nm num p).1).ContactTitle = "" := by
  refine ⟨?_, ?_, ?_, ?_, ?_, ?_, ?_, ?_, ?_, ?_, ?_, ?_, ?_, ?_, ?_⟩ <;>
    simp [assembleRow, validateRow, genTIN, genTitle, validate_field_empty]

/-- Enum-valued fields of every assembled row (whatever the code). -/
theorem assembleRow_enums (env : Env) (asOf : Nat) (code ident nm : String)
    (num p : Nat) :
    (((assembleRow env asOf code ident nm num p).1).RecordOperation = "A" ∨
     ((assembleRow env asOf code ident nm num p).1).RecordOperation = "D") ∧
    (((assembleRow env asOf code ident nm num p).1).ContactCode = "AO" ∨
     ((assembleRow env asOf code ident nm num p).1).ContactCode = "DO") ∧
    (((assembleRow env asOf code ident nm num p).1).PaymentMode = "EFT" ∨
     ((assembleRow env asOf code ident nm num p).1).PaymentMode = "CHK") := by
  refine ⟨?_, ?_, ?_⟩
  · simp only [assembleRow, validateRow]
    exact validate_choice2 (by decide) (by decide) env _
  · simp only [assembleRow, validateRow]
    exact validate_choice2 (by decide) (by decide) env _
  · simp only [assembleRow, validateRow]
    by_cases hM : code = "M"
    · rw [if_pos hM]
      left
      dsimp only
      decide
    · rw [if_neg hM]
      exact validate_choice2 (by decide) (by decide) env _

/-- Date fields built from any `genDates` result: the start date is never
blank, and when the end date is present it decodes to a day at or after the
start date. -/
theorem dates_ok_general (env : Env) (asOf : Nat) (ro : String) (pos : Nat)
    (hasOf : asOf ≤ 10 ^ 9) :
    validate_field "EffectiveStartDate"
      (fmtDate (genDates env asOf ro pos).startDay) ≠ "" ∧
    (validate_field "EffectiveEndDate"
        (endDateStr (genDates env asOf ro pos).endDay) ≠ "" →
      dateVal (validate_field "EffectiveStartDate"
        (fmtDate (genDates env asOf ro pos).startDay)) ≤
      dateVal (validate_field "EffectiveEndDate"
        (endDateStr (genDates env asOf ro pos).endDay))) := by
  obtain ⟨h1, h2, h3⟩ := genDates_spec env asOf ro pos
  constructor
  · rw [validate_start_fmt]
    exact fmtDate_ne_empty _
  · intro hne
    cases hend : (genDates env asOf ro pos).endDay with
    | none =>
      rw [hend] at hne
      simp [endDateStr, validate_field_empty] at hne
    | some e =>
      unfold endDateStr
      obtain ⟨he1, he2⟩ := h3 e hend
      rw [validate_start_fmt, validate_end_fmt]
      rw [dateVal_fmtDate (by omega), dateVal_fmtDate (by omega)]
      exact he1

theorem validate_routing_numerify (env : Env) (p : Nat) :
    validate_field "RoutingTransitNumber" (numerify env p 9) = numerify env p 9 := by
  have hl : lookupC "RoutingTransitNumber" = some (9, 9) := by decide
  exact validate_field_inrange hl (by decide)
    (by have := numerify_length env p 9; omega)
    (by have := numerify_length env p 9; omega)

theorem validate_account_numerify (env : Env) (p : Nat) :
    validate_field "AccountNumber" (numerify env p 6) = numerify env p 6 := by
  have hl : lookupC "AccountNumber" = some (1, 17) := by decide
  exact validate_field_inrange hl (by decide)
    (by have := numerify_length env p 6; omega)
    (by have := numerify_length env p 6; omega)

/-- Payment/banking consistency for the banking step, parameterized over the
drawn payment mode: `CHK` yields blanks; `EFT` yields well-formed banking
data unless the R-record clearing applies. -/
theorem banking_ok_general (env : Env) (code pay : String) (pos : Nat)
    (hpay : pay = "EFT" ∨ pay = "CHK") :
    (validate_field "PaymentMode" pay = "CHK" →
      validate_field "RoutingTransitNumber"
        (if code = "R" then "" else (genBanking env pay pos).routing) = "" ∧
      validate_field "AccountNumber"
        (if code = "R" then "" else (genBanking env pay pos).account) = "" ∧
      validate_field "AccountType"
        (if code = "R" then "" else (genBanking env pay pos).acctType) = "") ∧
    (validate_field "PaymentMode" pay = "EFT" → code ≠ "R" →
      (validate_field "RoutingTransitNumber"
        (if code = "R" then "" else (genBanking env pay pos).routing)).data.length = 9 ∧
      (∀ c ∈ (validate_field "RoutingTransitNumber"
        (if code = "R" then "" else (genBanking env pay pos).routing)).data,
        c.isDigit = true) ∧
      (validate_field "AccountNumber"
        (if code = "R" then "" else (genBanking env pay pos).account)).data.length = 6 ∧
      (∀ c ∈ (validate_field "AccountNumber"
        (if code = "R" then "" else (genBanking env pay pos).account)).data,
        c.isDigit = true) ∧
      (validate_field "AccountType"
        (if code = "R" then "" else (genBanking env pay pos).acctType) = "CHKING" ∨
       validate_field "AccountType"
        (if code = "R" then "" else (genBanking env pay pos).acctType) = "SAVING")) := by
  rcases hpay with rfl | rfl
  · constructor
    · intro hchk
      exact absurd hchk (by decide)
    · intro _ hR
      simp only [if_neg hR]
      unfold genBanking
      rw [if_pos rfl]
      dsimp only
      refine ⟨?_, ?_, ?_, ?_, ?_⟩
      · rw [validate_routing_numerify, numerify_length]
      · rw [validate_routing_numerify]
        exact numerify_digits env pos 9
      · rw [validate_account_numerify, numerify_length]
      · rw [validate_account_numerify]
        exact numerify_digits env (pos + 1) 6
      · exact validate_choice2 (by decide) (by decide) env _
  · constructor
    · intro _
      simp only [genBanking]
      refine ⟨?_, ?_, ?_⟩ <;> split <;> simp [validate_field_empty]
    · intro heft
      exact absurd heft (by decide)

theorem assembleRow_dates (env : Env) (asOf : Nat) (code ident nm : String)
    (num p : Nat) (hasOf : asOf ≤ 10 ^ 9) :
    ((assembleRow env asOf code ident nm num p).1).EffectiveStartDate ≠ "" ∧
    (((assembleRow env asOf code ident nm num p).1).EffectiveEndDate ≠ "" →
      dateVal ((assembleRow env asOf code ident nm num p).1).EffectiveStartDate ≤
      dateVal ((assembleRow env asOf code ident nm num p).1).EffectiveEndDate) := by
  simp only [assembleRow, validateRow]
  exact dates_ok_general env asOf _ _ hasOf

theorem assembleRow_start_ne (env : Env) (asOf : Nat) (code ident nm : String)
    (num p : Nat) :
    ((assembleRow env asOf code ident nm num p).1).EffectiveStartDate ≠ "" := by
  simp only [assembleRow, validateRow]
  rw [validate_start_fmt]
  exact fmtDate_ne_empty _

theorem assembleRow_banking (env : Env) (asOf : Nat) (code ident nm : String)
    (num p : Nat) :
    (((assembleRow env asOf code ident nm num p).1).PaymentMode = "CHK" →
      ((assembleRow env asOf code ident nm num p).1).RoutingTransitNumber = "" ∧
      ((assembleRow env asOf code ident nm num p).1).AccountNumber = "" ∧
      ((assembleRow env asOf code ident nm num p).1).AccountType = "") ∧
    (((assembleRow env asOf code ident nm num p).1).PaymentMode = "EFT" →
      code ≠ "R" →
      ((assembleRow env asOf code ident nm num p).1).RoutingTransitNumber.data.length = 9 ∧
      (∀ c ∈ ((assembleRow env asOf code ident nm num p).1).RoutingTransitNumber.data,
        c.isDigit = true) ∧
      ((assembleRow env asOf code ident nm num p).1).AccountNumber.data.length = 6 ∧
      (∀ c ∈ ((assembleRow env asOf code ident nm num p).1).AccountNumber.data,
        c.isDigit = true) ∧
      (((assembleRow env asOf code ident nm num p).1).AccountType = "CHKING" ∨
       ((assembleRow env asOf code ident nm num p).1).AccountType = "SAVING")) := by
  simp only [assembleRow, validateRow]
  refine banking_ok_general env code _ _ ?_
  by_cases hM : code = "M"
  · rw [if_pos hM]
    exact Or.inl rfl
  · rw [if_neg hM]
    dsimp only
    exact choice2_cases env _ "EFT" "CHK"

/-! ### Claim-level theorems about single generated rows -/

/-- C2: for every generated row whose OrganizationCode is M, D or P, the
PayeeID and OrganizationIdentifier fields are exactly the same string, also
after the validation pass (PayeeID max 9, OrganizationIdentifier max 12). -/
theorem generate_row_payeeid_eq_orgid (env : Env) (asOf fuel p0 : Nat)
    (st : GenState) (row : Row) (p1 : Nat) (st1 : GenState)
    (h : generate_row env asOf fuel p0 st = some (row, p1, st1))
    (hc : row.OrganizationCode = "M" ∨ row.OrganizationCode = "D" ∨
          row.OrganizationCode = "P") :
    row.PayeeID = row.OrganizationIdentifier := by
  obtain ⟨pk, hpick, hrow, hst⟩ := generate_row_cases h
  have hP : lookupC "PayeeID" = some (2, 9) := by decide
  have hO : lookupC "OrganizationIdentifier" = some (3, 12) := by decide
  rcases codeOf_cases env p0 with hcd | hcd | hcd | hcd <;> rw [hcd] at hpick hrow
  · obtain ⟨-, -, -, -, -, -, hl3, hl9⟩ := pickIdentifier_M_spec hpick
    obtain ⟨-, hpayee, horg⟩ :=
      assembleRow_ids_M env asOf pk.ident pk.name (numOf env p0) pk.p
    rw [hrow, hpayee, horg,
      validate_field_inrange hP (by decide) (by omega) (by omega),
      validate_field_inrange hO (by decide) (by omega) (by omega)]
  · obtain ⟨-, -, -, -, -, -, hl3, hl9⟩ := pickIdentifier_D_spec hpick
    obtain ⟨-, hpayee, horg⟩ :=
      assembleRow_ids_D env asOf pk.ident pk.name (numOf env p0) pk.p
    rw [hrow, hpayee, horg,
      validate_field_inrange hP (by decide) (by omega) (by omega),
      validate_field_inrange hO (by decide) (by omega) (by omega)]
  · obtain ⟨-, -, -, -, -, -, hl3, hl9⟩ := pickIdentifier_P_spec hpick
    obtain ⟨-, hpayee, horg⟩ :=
      assembleRow_ids_P env asOf pk.ident pk.name (numOf env p0) pk.p
    rw [hrow, hpayee, horg,
      validate_field_inrange hP (by decide) (by omega) (by omega),
      validate_field_inrange hO (by decide) (by omega) (by omega)]
  · rw [hrow] at hc
    rw [(assembleRow_ids_R env asOf pk.ident pk.name (numOf env p0) pk.p).1] at hc
    rcases hc with h2 | h2 | h2 <;> exact absurd h2 (by decide)

/-- C6: every generated row has a non-blank EffectiveStartDate, and when the
EffectiveEndDate is present it is on or after the EffectiveStartDate. -/
theorem generate_row_date_ordering (env : Env) (asOf fuel p0 : Nat)
    (st : GenState) (row : Row) (p1 : Nat) (st1 : GenState)
    (h : generate_row env asOf fuel p0 st = some (row, p1, st1))
    (hasOf : asOf ≤ 10 ^ 9) :
    row.EffectiveStartDate ≠ "" ∧
    (row.EffectiveEndDate ≠ "" →
      dateVal row.EffectiveStartDate ≤ dateVal row.EffectiveEndDate) := by
  obtain ⟨pk, hpick, hrow, hst⟩ := generate_row_cases h
  rw [hrow]
  exact assembleRow_dates env asOf _ pk.ident pk.name _ pk.p hasOf

/-- C3 (amended): CHK rows have blank banking fields; EFT rows of non-R
codes have a 9-digit routing number, a 6-digit account number and a valid
account type (the R-record clearing blanks the banking fields even when the
PaymentMode field of the R row reads EFT). -/
theorem generate_row_payment_consistency (env : Env) (asOf fuel p0 : Nat)
    (st : GenState) (row : Row) (p1 : Nat) (st1 : GenState)
    (h : generate_row env asOf fuel p0 st = some (row, p1, st1)) :
    (row.PaymentMode = "CHK" → row.RoutingTransitNumber = "" ∧
      row.AccountNumber = "" ∧ row.AccountType = "") ∧
    (row.PaymentMode = "EFT" → row.OrganizationCode ≠ "R" →
      row.RoutingTransitNumber.data.length = 9 ∧
      (∀ c ∈ row.RoutingTransitNumber.data, c.isDigit = true) ∧
      row.AccountNumber.data.length = 6 ∧
      (∀ c ∈ row.AccountNumber.data, c.isDigit = true) ∧
      (row.AccountType = "CHKING" ∨ row.AccountType = "SAVING")) := by
  obtain ⟨pk, hpick, hrow, hst⟩ := generate_row_cases h
  rcases codeOf_cases env p0 with hcd | hcd | hcd | hcd <;> rw [hcd] at hpick hrow <;>
    rw [hrow]
  · exact ⟨(assembleRow_banking env asOf "M" pk.ident pk.name _ pk.p).1,
      fun heft _ =>
        (assembleRow_banking env asOf "M" pk.ident pk.name _ pk.p).2 heft (by decide)⟩
  · exact ⟨(assembleRow_banking env asOf "D" pk.ident pk.name _ pk.p).1,
      fun heft _ =>
        (assembleRow_banking env asOf "D" pk.ident pk.name _ pk.p).2 heft (by decide)⟩
  · exact ⟨(assembleRow_banking env asOf "P" pk.ident pk.name _ pk.p).1,
      fun heft _ =>
        (assembleRow_banking env asOf "P" pk.ident pk.name _ pk.p).2 heft (by decide)⟩
  · obtain ⟨hb1, hb2, hb3, -⟩ :=
      assembleRow_R_blanks env asOf pk.ident pk.name (numOf env p0) pk.p
    refine ⟨fun _ => ⟨hb1, hb2, hb3⟩, fun _ hR => ?_⟩
    exact absurd (assembleRow_ids_R env asOf pk.ident pk.name (numOf env p0) pk.p).1 hR

/-- C1 (amended): for every generated R row the banking, address, TIN,
profit, contact-name and contact-title fields are blank, but
RecordOperation, PaymentMode, ContactCode and EffectiveStartDate remain
populated (the generator does not clear them for R rows). -/
theorem generate_row_R_reduction (env : Env) (asOf fuel p0 : Nat)
    (st : GenState) (row : Row) (p1 : Nat) (st1 : GenState)
    (h : generate_row env asOf fuel p0 st = some (row, p1, st1))
    (hR : row.OrganizationCode = "R") :
    (row.RoutingTransitNumber = "" ∧ row.AccountNumber = "" ∧
     row.AccountType = "" ∧ row.AddressCode = "" ∧ row.AddressLine1 = "" ∧
     row.AddressLine2 = "" ∧ row.CityName = "" ∧ row.State = "" ∧
     row.PostalCode = "" ∧ row.ContactFirstName = "" ∧
     row.ContactLastName = "" ∧ row.OrganizationTIN = "" ∧
     row.OrganizationTINType = "" ∧ row.ProfitNonprofit = "" ∧
     row.ContactTitle = "") ∧
    (row.RecordOperation = "A" ∨ row.RecordOperation = "D") ∧
    (row.PaymentMode = "EFT" ∨ row.PaymentMode = "CHK") ∧
    (row.ContactCode = "AO" ∨ row.ContactCode = "DO") ∧
    row.EffectiveStartDate ≠ "" := by
  obtain ⟨pk, hpick, hrow, hst⟩ := generate_row_cases h
  rcases codeOf_cases env p0 with hcd | hcd | hcd | hcd <;> rw [hcd] at hpick hrow
  · rw [hrow] at hR
    rw [(assembleRow_ids_M env asOf pk.ident pk.name (numOf env p0) pk.p).1] at hR
    exact absurd hR (by decide)
  · rw [hrow] at hR
    rw [(assembleRow_ids_D env asOf pk.ident pk.name (numOf env p0) pk.p).1] at hR
    exact absurd hR (by decide)
  · rw [hrow] at hR
    rw [(assembleRow_ids_P env asOf pk.ident pk.name (numOf env p0) pk.p).1] at hR
    exact absurd hR (by decide)
  · rw [hrow]
    obtain ⟨he1, he2, he3⟩ :=
      assembleRow_enums env asOf "R" pk.ident pk.name (numOf env p0) pk.p
    exact ⟨assembleRow_R_blanks env asOf pk.ident pk.name (numOf env p0) pk.p,
      he1, he3, he2,
      assembleRow_start_ne env asOf "R" pk.ident pk.name (numOf env p0) pk.p⟩

/-! ### Concrete runs used as witnesses and counterexamples -/

/-- A constant-valued draw stream; its first row has OrganizationCode R. -/
def envR3 : Env := { nat := fun _ => 3, str := fun i => "F" ++ natRepr i }

/-- A draw stream whose first row is an R record with PaymentMode EFT. -/
def envREft : Env :=
  { nat := fun i => if i = 0 then 3 else 0, str := fun i => "F" ++ natRepr i }

def rRun : Option (Row × Nat × GenState) :=
  generate_row envR3 20000 100 0 initState

def rRow : Row := (rRun.map (fun x => x.1)).getD default

def rPos : Nat := (rRun.map (fun x => x.2.1)).getD 0

def rSt : GenState := (rRun.map (fun x => x.2.2)).getD initState

def seedRun : Option (Row × Nat × GenState) :=
  generate_row (envOfSeed 100) 20000 100 0 initState

def seedRow : Row := (seedRun.map (fun x => x.1)).getD default

def seedPos : Nat := (seedRun.map (fun x => x.2.1)).getD 0

def seedSt : GenState := (seedRun.map (fun x => x.2.2)).getD initState

def eftRun : Option (Row × Nat × GenState) :=
  generate_row envREft 20000 100 0 initState

/-- C1 counterexample: a generated R row whose RecordOperation, PaymentMode
and ContactCode are populated, contradicting the claim that every field
outside the five retained ones is blank for R rows. -/
theorem generate_row_R_reduction_cex :
    (rRun.map (fun x => (x.1.OrganizationCode, x.1.RecordOperation,
      x.1.PaymentMode, x.1.ContactCode))) = some ("R", "D", "CHK", "DO") ∧
    ("D" : String) ≠ "" ∧ ("CHK" : String) ≠ "" ∧ ("DO" : String) ≠ "" :=
  ⟨by decide, by decide, by decide, by decide⟩

/-- C1 witness: the amended R-row reduction at a concrete run. -/
theorem generate_row_R_reduction_witness :
    generate_row envR3 20000 100 0 initState = some (rRow, rPos, rSt) ∧
    rRow.OrganizationCode = "R" ∧
    ((rRow.RoutingTransitNumber = "" ∧ rRow.AccountNumber = "" ∧
      rRow.AccountType = "" ∧ rRow.AddressCode = "" ∧ rRow.AddressLine1 = "" ∧
      rRow.AddressLine2 = "" ∧ rRow.CityName = "" ∧ rRow.State = "" ∧
      rRow.PostalCode = "" ∧ rRow.ContactFirstName = "" ∧
      rRow.ContactLastName = "" ∧ rRow.OrganizationTIN = "" ∧
      rRow.OrganizationTINType = "" ∧ rRow.ProfitNonprofit = "" ∧
      rRow.ContactTitle = "") ∧
     (rRow.RecordOperation = "A" ∨ rRow.RecordOperation = "D") ∧
     (rRow.PaymentMode = "EFT" ∨ rRow.PaymentMode = "CHK") ∧
     (rRow.ContactCode = "AO" ∨ rRow.ContactCode = "DO") ∧
     rRow.EffectiveStartDate ≠ "") :=
  ⟨by decide, by decide,
    generate_row_R_reduction envR3 20000 100 0 initState rRow rPos rSt
      (by decide) (by decide)⟩

/-- C2 witness: PayeeID equals OrganizationIdentifier on a concrete D row. -/
theorem generate_row_payeeid_eq_orgid_witness :
    generate_row (envOfSeed 100) 20000 100 0 initState =
      some (seedRow, seedPos, seedSt) ∧
    (seedRow.OrganizationCode = "M" ∨ seedRow.OrganizationCode = "D" ∨
     seedRow.OrganizationCode = "P") ∧
    seedRow.PayeeID = seedRow.OrganizationIdentifier :=
  ⟨by decide, by decide,
    generate_row_payeeid_eq_orgid (envOfSeed 100) 20000 100 0 initState
      seedRow seedPos seedSt (by decide) (by decide)⟩

/-- C3 counterexample: an R row whose PaymentMode reads EFT while all three
banking fields are blank, contradicting the claim that EFT implies
well-formed banking data. -/
theorem generate_row_payment_consistency_cex :
    (eftRun.map (fun x => (x.1.PaymentMode, x.1.RoutingTransitNumber,
      x.1.AccountNumber, x.1.AccountType))) = some ("EFT", "", "", "") ∧
    ("" : String).data.length ≠ 9 :=
  ⟨by decide, by decide⟩

/-- C3 witness: the amended payment-mode consistency at a concrete run. -/
theorem generate_row_payment_consistency_witness :
    generate_row (envOfSeed 100) 20000 100 0 initState =
      some (seedRow, seedPos, seedSt) ∧
    ((seedRow.PaymentMode = "CHK" → seedRow.RoutingTransitNumber = "" ∧
       seedRow.AccountNumber = "" ∧ seedRow.AccountType = "") ∧
     (seedRow.PaymentMode = "EFT" → seedRow.OrganizationCode ≠ "R" →
       seedRow.RoutingTransitNumber.data.length = 9 ∧
       (∀ c ∈ seedRow.RoutingTransitNumber.data, c.isDigit = true) ∧
       seedRow.AccountNumber.data.length = 6 ∧
       (∀ c ∈ seedRow.AccountNumber.data, c.isDigit = true) ∧
       (seedRow.AccountType = "CHKING" ∨ seedRow.AccountType = "SAVING"))) :=
  ⟨by decide,
    generate_row_payment_consistency (envOfSeed 100) 20000 100 0 initState
      seedRow seedPos seedSt (by decide)⟩

/-- C6 witness: date ordering at a concrete run. -/
theorem generate_row_date_ordering_witness :
    generate_row (envOfSeed 100) 20000 100 0 initState =
      some (seedRow, seedPos, seedSt) ∧
    (20000 : Nat) ≤ 10 ^ 9 ∧
    (seedRow.EffectiveStartDate ≠ "" ∧
     (seedRow.EffectiveEndDate ≠ "" →
       dateVal seedRow.EffectiveStartDate ≤ dateVal seedRow.EffectiveEndDate)) :=
  ⟨by decide, by decide,
    generate_row_date_ordering (envOfSeed 100) 20000 100 0 initState
      seedRow seedPos seedSt (by decide) (by decide)⟩

/-! ### Determinism, enforcement bounds, truncation -/

/-- C4: `Generate` is deterministic for fixed (rowCount, seed, asOfDate):
the generator state is a pure function of the seed-derived stream and the
supplied as-of date, so the wall-clock parameter (used by `__init__` only
when no as-of date is given) cannot influence the table. -/
theorem generateTable_deterministic (n seed d : Nat) (b : Bool)
    (fuel now1 now2 : Nat) :
    generateTable n seed (some d) b fuel now1 =
    generateTable n seed (some d) b fuel now2 := rfl

theorem validate_field_trunc {f v : String} {mn mx : Nat}
    (hl : lookupC f = some (mn, mx)) (hT : f ≠ "OrganizationTINType")
    (hlong : mx < v.data.length) :
    validate_field f v = strTake v mx := by
  obtain ⟨hmn1, hmnmx⟩ := lookupC_spec hl
  have hvne : v ≠ "" := by
    intro hv
    rw [hv] at hlong
    simp at hlong
  have hbv : (v == "") = false := beq_eq_false_iff_ne.mpr hvne
  have hTb : (f == "OrganizationTINType") = false := beq_eq_false_iff_ne.mpr hT
  rw [validate_field_def hl]
  rw [if_neg (by rw [hbv]; simp)]
  simp only [hTb, Bool.false_and, Bool.false_eq_true, if_false]
  rw [if_pos hlong]
  rw [if_neg]
  rw [strTake_length]
  simp only [Bool.and_eq_true, decide_eq_true_eq, Bool.not_eq_true]
  intro hcon
  omega

/-- C5: after the Constraint Enforcer, every non-empty value lies within the
field's declared `[min_length, max_length]`; too-long values are truncated
to `max_length`; short non-empty values are zero-left-padded on the four
numeric-identifier fields and space-padded (left-justified) on the other
fields (the enum-coerced `OrganizationTINType`, whose generated values are
only EIN, SSN or blank, excepted). -/
theorem validate_field_bounds_and_padding (f v : String) (mn mx : Nat)
    (hl : lookupC f = some (mn, mx)) :
    (validate_field f v ≠ "" →
      mn ≤ (validate_field f v).data.length ∧
      (validate_field f v).data.length ≤ mx) ∧
    (mx < v.data.length → f ≠ "OrganizationTINType" →
      validate_field f v = strTake v mx) ∧
    (zfillFld f = true → v ≠ "" → v.data.length < mn →
      (∀ c ∈ v.data, c.isDigit = true) →
      validate_field f v = ⟨List.replicate (mn - v.data.length) '0' ++ v.data⟩) ∧
    (zfillFld f = false → f ≠ "OrganizationTINType" → v ≠ "" →
      v.data.length < mn →
      validate_field f v = ⟨v.data ++ List.replicate (mn - v.data.length) ' '⟩) :=
  ⟨fun hne => validate_field_length hl hne,
   fun hlong hT => validate_field_trunc hl hT hlong,
   fun hz hne hshort hd => validate_field_zfill hl hz hne hshort hd,
   fun hz hT hne hshort => validate_field_ljust hl hz hT hne hshort⟩

/-- C5 witness: a short digit value on the zero-fill field
RoutingTransitNumber is zero-left-padded to the minimum length. -/
theorem validate_field_bounds_and_padding_witness :
    lookupC "RoutingTransitNumber" = some (9, 9) ∧
    validate_field "RoutingTransitNumber" "123" =
      ⟨List.replicate (9 - ("123" : String).data.length) '0' ++
        ("123" : String).data⟩ :=
  ⟨by decide,
    (validate_field_bounds_and_padding "RoutingTransitNumber" "123" 9 9
      (by decide)).2.2.1 (by decide) (by decide) (by decide) (by decide)⟩

/-! ### Allocator termination (the collision loop has no cap or fallback) -/

/-- Termination of the `generate_unique_id` collision loop, as a
proposition: some fuel suffices. -/
def allocTerminates (pre numStr : String) (maxD : Nat)
    (used : String → Bool) : Prop :=
  ∃ fuel, (allocFuel pre numStr maxD used fuel 0).isSome = true

/-- A saturated DISP namespace: every string starting with `DISP` is used. -/
def satUsedD : String → Bool := fun s => s.data.take 4 == ("DISP" : String).data

theorem satUsedD_append (t : String) : satUsedD ("DISP" ++ t) = true := by
  have h : (("DISP" ++ t).data).take 4 = ("DISP" : String).data := rfl
  unfold satUsedD
  rw [h]
  simp

theorem candAt_DISP (numStr : String) (maxD c : Nat) :
    satUsedD (candAt "DISP" numStr maxD c) = true := by
  unfold candAt
  split
  · exact satUsedD_append numStr
  · exact satUsedD_append _

theorem allocFuel_sat_none (numStr : String) (maxD : Nat) :
    ∀ fuel c, allocFuel "DISP" numStr maxD satUsedD fuel c = none := by
  intro fuel
  induction fuel with
  | zero => intro c; rfl
  | succ f ih =>
    intro c
    unfold allocFuel
    rw [if_pos (candAt_DISP numStr maxD c)]
    exact ih (c + 1)

/-- C9 counterexample: with a saturated DISP namespace every candidate the
loop can ever build is already used, and `generate_unique_id`'s collision
loop returns for no amount of fuel: the code has no retry cap and no
random-suffix fallback. -/
theorem generate_unique_id_no_fallback_cex :
    ¬ allocTerminates "DISP" "12" 5 satUsedD := by
  rintro ⟨fuel, hf⟩
  rw [allocFuel_sat_none "12" 5 fuel 0] at hf
  simp at hf

theorem allocFuel_terminates (pre numStr : String) (maxD : Nat)
    (used : String → Bool) (c : Nat)
    (h : used (candAt pre numStr maxD c) = false) :
    ∀ fuel c0, c0 ≤ c → c - c0 < fuel →
      ∃ s, allocFuel pre numStr maxD used fuel c0 = some s ∧
        used s = false := by
  intro fuel
  induction fuel with
  | zero => intro c0 h1 h2; omega
  | succ f ih =>
    intro c0 h1 h2
    unfold allocFuel
    by_cases husd : used (candAt pre numStr maxD c0) = true
    · rw [if_pos husd]
      have hne : c0 ≠ c := by
        intro he
        rw [he, h] at husd
        exact absurd husd (by simp)
      exact ih (c0 + 1) (by omega) (by omega)
    · have husd2 : used (candAt pre numStr maxD c0) = false := by
        revert husd
        cases used (candAt pre numStr maxD c0) <;> simp
      rw [if_neg (by rw [husd2]; simp)]
      exact ⟨_, rfl, husd2⟩

/-- C9 (amended): identifier allocation retries unboundedly by incrementing
a counter, with no retry cap and no synthesized fallback.  It terminates —
returning an identifier outside the used set — exactly when some reachable
candidate `prefix ++ str(int(num_str) + c)[:maxD]` is unused (given fuel
beyond that counter); with a fully saturated namespace it loops forever. -/
theorem generate_unique_id_unbounded_retry (pre : String) (num : Nat)
    (used : String → Bool) (c fuel : Nat)
    (h : used (candAt pre (strTake (natRepr num) (9 - pre.data.length))
          (9 - pre.data.length) c) = false)
    (hf : c < fuel) :
    ∃ s, generate_unique_id pre num used fuel = some s ∧ used s = false := by
  unfold generate_unique_id
  exact allocFuel_terminates _ _ _ used c h fuel 0 (by omega) (by omega)

/-- C9 witness: with only `DISP12` used, the first retry (counter 1) yields
`DISP13`, and allocation succeeds with fuel 2. -/
theorem generate_unique_id_unbounded_retry_witness :
    (fun s => s == "DISP12")
      (candAt "DISP" (strTake (natRepr 12) (9 - ("DISP" : String).data.length))
        (9 - ("DISP" : String).data.length) 1) = false ∧
    1 < 2 ∧
    ∃ s, generate_unique_id "DISP" 12 (fun s => s == "DISP12") 2 = some s ∧
      (fun s => s == "DISP12") s = false :=
  ⟨by decide, by decide,
    generate_unique_id_unbounded_retry "DISP" 12 (fun s => s == "DISP12") 1 2
      (by decide) (by decide)⟩

/-! ### Identifier uniqueness across a generated table -/

def isMDP (r : Row) : Prop :=
  r.OrganizationCode = "M" ∨ r.OrganizationCode = "D" ∨ r.OrganizationCode = "P"

/-- The row's identifier is in the matching used-namespace of `st`. -/
def rowRecorded (st : GenState) (r : Row) : Prop :=
  (r.OrganizationCode = "M" → st.usedM.contains r.OrganizationIdentifier = true) ∧
  (r.OrganizationCode = "D" → st.usedD.contains r.OrganizationIdentifier = true) ∧
  (r.OrganizationCode = "P" → st.usedP.contains r.OrganizationIdentifier = true)

/-- The row's identifier is absent from the matching used-namespace of `st`. -/
def rowFresh (st : GenState) (r : Row) : Prop :=
  (r.OrganizationCode = "M" → st.usedM.contains r.OrganizationIdentifier = false) ∧
  (r.OrganizationCode = "D" → st.usedD.contains r.OrganizationIdentifier = false) ∧
  (r.OrganizationCode = "P" → st.usedP.contains r.OrganizationIdentifier = false)

/-- The used-namespaces only grow. -/
def stMono (st st1 : GenState) : Prop :=
  (∀ x, st.usedM.contains x = true → st1.usedM.contains x = true) ∧
  (∀ x, st.usedD.contains x = true → st1.usedD.contains x = true) ∧
  (∀ x, st.usedP.contains x = true → st1.usedP.contains x = true)

/-- The identifier's first character reveals the code (M/D/P families). -/
def rowHeads (r : Row) : Prop :=
  (r.OrganizationCode = "M" → r.OrganizationIdentifier.data.head? = some 'M') ∧
  (r.OrganizationCode = "D" → r.OrganizationIdentifier.data.head? = some 'D') ∧
  (r.OrganizationCode = "P" → r.OrganizationIdentifier.data.head? = some 'P')

theorem stMono_refl (st : GenState) : stMono st st :=
  ⟨fun _ h => h, fun _ h => h, fun _ h => h⟩

theorem stMono_trans {s1 s2 s3 : GenState} (h1 : stMono s1 s2)
    (h2 : stMono s2 s3) : stMono s1 s3 :=
  ⟨fun x h => h2.1 x (h1.1 x h), fun x h => h2.2.1 x (h1.2.1 x h),
   fun x h => h2.2.2 x (h1.2.2 x h)⟩

theorem rowFresh_antitone {st st1 : GenState} {r : Row} (hm : stMono st st1)
    (hf : rowFresh st1 r) : rowFresh st r := by
  refine ⟨fun hc => ?_, fun hc => ?_, fun hc => ?_⟩ <;>
    [have h1 := hf.1 hc; have h1 := hf.2.1 hc; have h1 := hf.2.2 hc] <;>
    [have h2 := hm.1 r.OrganizationIdentifier;
     have h2 := hm.2.1 r.OrganizationIdentifier;
     have h2 := hm.2.2 r.OrganizationIdentifier] <;>
    (revert h1 h2; cases hx : (List.contains _ r.OrganizationIdentifier) <;> simp_all)

theorem rowRecorded_mono {st st1 : GenState} {r : Row} (hm : stMono st st1)
    (hr : rowRecorded st r) : rowRecorded st1 r :=
  ⟨fun hc => hm.1 _ (hr.1 hc), fun hc => hm.2.1 _ (hr.2.1 hc),
   fun hc => hm.2.2 _ (hr.2.2 hc)⟩

theorem ne_of_head_ne {x y : String} {c1 c2 : Char}
    (h1 : x.data.head? = some c1) (h2 : y.data.head? = some c2)
    (hne : c1 ≠ c2) : x ≠ y := by
  intro he
  rw [he, h2] at h1
  exact hne (by simpa using h1.symm)

/-- A row already recorded in `st` and a row fresh in `st` cannot share an
identifier (same code: set membership differs; different codes: leading
characters differ). -/
theorem fresh_recorded_ne {st : GenState} {a b : Row}
    (ha : rowRecorded st a) (hb : rowFresh st b)
    (hha : rowHeads a) (hhb : rowHeads b)
    (haM : isMDP a) (hbM : isMDP b) :
    a.OrganizationIdentifier ≠ b.OrganizationIdentifier := by
  have same : ∀ (la : List String),
      la.contains a.OrganizationIdentifier = true →
      la.contains b.OrganizationIdentifier = false →
      a.OrganizationIdentifier ≠ b.OrganizationIdentifier := by
    intro la h1 h2 he
    rw [he] at h1
    rw [h1] at h2
    exact absurd h2 (by simp)
  rcases haM with hca | hca | hca <;> rcases hbM with hcb | hcb | hcb
  · exact same _ (ha.1 hca) (hb.1 hcb)
  · exact ne_of_head_ne (hha.1 hca) (hhb.2.1 hcb) (by decide)
  · exact ne_of_head_ne (hha.1 hca) (hhb.2.2 hcb) (by decide)
  · exact ne_of_head_ne (hha.2.1 hca) (hhb.1 hcb) (by decide)
  · exact same _ (ha.2.1 hca) (hb.2.1 hcb)
  · exact ne_of_head_ne (hha.2.1 hca) (hhb.2.2 hcb) (by decide)
  · exact ne_of_head_ne (hha.2.2 hca) (hhb.1 hcb) (by decide)
  · exact ne_of_head_ne (hha.2.2 hca) (hhb.2.1 hcb) (by decide)
  · exact same _ (ha.2.2 hca) (hb.2.2 hcb)

/-- Allocation effect of one generated row: an M/D/P row's identifier is
fresh in the entry state and recorded (consed) in the exit state of its own
namespace, with the other namespaces unchanged; an R row leaves all three
M/D/P namespaces unchanged. -/
theorem generate_row_alloc (env : Env) (asOf fuel p0 : Nat) (st : GenState)
    (row : Row) (p1 : Nat) (st1 : GenState)
    (h : generate_row env asOf fuel p0 st = some (row, p1, st1)) :
    (row.OrganizationCode = "M" ∧
      st.usedM.contains row.OrganizationIdentifier = false ∧
      st1.usedM = row.OrganizationIdentifier :: st.usedM ∧
      st1.usedD = st.usedD ∧ st1.usedP = st.usedP ∧
      row.OrganizationIdentifier.data.head? = some 'M') ∨
    (row.OrganizationCode = "D" ∧
      st.usedD.contains row.OrganizationIdentifier = false ∧
      st1.usedD = row.OrganizationIdentifier :: st.usedD ∧
      st1.usedM = st.usedM ∧ st1.usedP = st.usedP ∧
      row.OrganizationIdentifier.data.head? = some 'D') ∨
    (row.OrganizationCode = "P" ∧
      st.usedP.contains row.OrganizationIdentifier = false ∧
      st1.usedP = row.OrganizationIdentifier :: st.usedP ∧
      st1.usedM = st.usedM ∧ st1.usedD = st.usedD ∧
      row.OrganizationIdentifier.data.head? = some 'P') ∨
    (row.OrganizationCode = "R" ∧ st1.usedM = st.usedM ∧
      st1.usedD = st.usedD ∧ st1.usedP = st.usedP) := by
  obtain ⟨pk, hpick, hrow, hst⟩ := generate_row_cases h
  have hO : lookupC "OrganizationIdentifier" = some (3, 12) := by decide
  rcases codeOf_cases env p0 with hcd | hcd | hcd | hcd <;> rw [hcd] at hpick hrow
  · left
    obtain ⟨hfresh, hupd, hD, hP, -, hhead, hl3, hl9⟩ := pickIdentifier_M_spec hpick
    obtain ⟨hcode, -, horg⟩ :=
      assembleRow_ids_M env asOf pk.ident pk.name (numOf env p0) pk.p
    have horg2 : row.OrganizationIdentifier = pk.ident := by
      rw [hrow, horg,
        validate_field_inrange hO (by decide) (by omega) (by omega)]
    refine ⟨by rw [hrow]; exact hcode, ?_, ?_, ?_, ?_, ?_⟩
    · rw [horg2]; exact hfresh
    · rw [horg2, hst]; exact hupd
    · rw [hst]; exact hD
    · rw [hst]; exact hP
    · rw [horg2]; exact hhead
  · right; left
    obtain ⟨hfresh, hupd, hM, hP, -, hhead, hl3, hl9⟩ := pickIdentifier_D_spec hpick
    obtain ⟨hcode, -, horg⟩ :=
      assembleRow_ids_D env asOf pk.ident pk.name (numOf env p0) pk.p
    have horg2 : row.OrganizationIdentifier = pk.ident := by
      rw [hrow, horg,
        validate_field_inrange hO (by decide) (by omega) (by omega)]
    refine ⟨by rw [hrow]; exact hcode, ?_, ?_, ?_, ?_, ?_⟩
    · rw [horg2]; exact hfresh
    · rw [horg2, hst]; exact hupd
    · rw [hst]; exact hM
    · rw [hst]; exact hP
    · rw [horg2]; exact hhead
  · right; right; left
    obtain ⟨hfresh, hupd, hM, hD, -, hhead, hl3, hl9⟩ := pickIdentifier_P_spec hpick
    obtain ⟨hcode, -, horg⟩ :=
      assembleRow_ids_P env asOf pk.ident pk.name (numOf env p0) pk.p
    have horg2 : row.OrganizationIdentifier = pk.ident := by
      rw [hrow, horg,
        validate_field_inrange hO (by decide) (by omega) (by omega)]
    refine ⟨by rw [hrow]; exact hcode, ?_, ?_, ?_, ?_, ?_⟩
    · rw [horg2]; exact hfresh
    · rw [horg2, hst]; exact hupd
    · rw [hst]; exact hM
    · rw [hst]; exact hD
    · rw [horg2]; exact hhead
  · right; right; right
    obtain ⟨hM, hD, hP, -⟩ := pickIdentifier_R_spec hpick
    obtain ⟨hcode, -⟩ :=
      assembleRow_ids_R env asOf pk.ident pk.name (numOf env p0) pk.p
    exact ⟨by rw [hrow]; exact hcode, by rw [hst]; exact hM,
      by rw [hst]; exact hD, by rw [hst]; exact hP⟩

theorem code_clash {r : Row} {c1 c2 : String} (h1 : r.OrganizationCode = c1)
    (h2 : r.OrganizationCode = c2) (hne : c1 ≠ c2) : False :=
  hne (h1.symm.trans h2)

theorem generate_row_state (env : Env) (asOf fuel p0 : Nat) (st : GenState)
    (row : Row) (p1 : Nat) (st1 : GenState)
    (h : generate_row env asOf fuel p0 st = some (row, p1, st1)) :
    rowFresh st row ∧ rowRecorded st1 row ∧ rowHeads row ∧ stMono st st1 := by
  rcases generate_row_alloc env asOf fuel p0 st row p1 st1 h with
    ⟨hc, hfresh, hupd, h2, h3, hhead⟩ | ⟨hc, hfresh, hupd, h2, h3, hhead⟩ |
    ⟨hc, hfresh, hupd, h2, h3, hhead⟩ | ⟨hc, h1, h2, h3⟩
  · refine ⟨⟨fun _ => hfresh, fun hc2 => absurd (code_clash hc hc2 (by decide)) id,
      fun hc2 => absurd (code_clash hc hc2 (by decide)) id⟩,
      ⟨fun _ => by rw [hupd]; simp,
        fun hc2 => absurd (code_clash hc hc2 (by decide)) id,
        fun hc2 => absurd (code_clash hc hc2 (by decide)) id⟩,
      ⟨fun _ => hhead, fun hc2 => absurd (code_clash hc hc2 (by decide)) id,
        fun hc2 => absurd (code_clash hc hc2 (by decide)) id⟩,
      ⟨fun x hx => by rw [hupd, List.contains_cons, hx, Bool.or_true],
        fun x hx => by rw [h2]; exact hx, fun x hx => by rw [h3]; exact hx⟩⟩
  · refine ⟨⟨fun hc2 => absurd (code_clash hc hc2 (by decide)) id, fun _ => hfresh,
      fun hc2 => absurd (code_clash hc hc2 (by decide)) id⟩,
      ⟨fun hc2 => absurd (code_clash hc hc2 (by decide)) id,
        fun _ => by rw [hupd]; simp,
        fun hc2 => absurd (code_clash hc hc2 (by decide)) id⟩,
      ⟨fun hc2 => absurd (code_clash hc hc2 (by decide)) id, fun _ => hhead,
        fun hc2 => absurd (code_clash hc hc2 (by decide)) id⟩,
      ⟨fun x hx => by rw [h2]; exact hx,
        fun x hx => by rw [hupd, List.contains_cons, hx, Bool.or_true],
        fun x hx => by rw [h3]; exact hx⟩⟩
  · refine ⟨⟨fun hc2 => absurd (code_clash hc hc2 (by decide)) id,
      fun hc2 => absurd (code_clash hc hc2 (by decide)) id, fun _ => hfresh⟩,
      ⟨fun hc2 => absurd (code_clash hc hc2 (by decide)) id,
        fun hc2 => absurd (code_clash hc hc2 (by decide)) id,
        fun _ => by rw [hupd]; simp⟩,
      ⟨fun hc2 => absurd (code_clash hc hc2 (by decide)) id,
        fun hc2 => absurd (code_clash hc hc2 (by decide)) id, fun _ => hhead⟩,
      ⟨fun x hx => by rw [h2]; exact hx, fun x hx => by rw [h3]; exact hx,
        fun x hx => by rw [hupd, List.contains_cons, hx, Bool.or_true]⟩⟩
  · refine ⟨⟨fun hc2 => absurd (code_clash hc hc2 (by decide)) id,
      fun hc2 => absurd (code_clash hc hc2 (by decide)) id,
      fun hc2 => absurd (code_clash hc hc2 (by decide)) id⟩,
      ⟨fun hc2 => absurd (code_clash hc hc2 (by decide)) id,
        fun hc2 => absurd (code_clash hc hc2 (by decide)) id,
        fun hc2 => absurd (code_clash hc hc2 (by decide)) id⟩,
      ⟨fun hc2 => absurd (code_clash hc hc2 (by decide)) id,
        fun hc2 => absurd (code_clash hc hc2 (by decide)) id,
        fun hc2 => absurd (code_clash hc hc2 (by decide)) id⟩,
      ⟨fun x hx => by rw [h1]; exact hx, fun x hx => by rw [h2]; exact hx,
        fun x hx => by rw [h3]; exact hx⟩⟩

/-- Invariant of `generate_data`: the used-sets grow, every emitted M/D/P
row is fresh at entry and recorded at exit, identifiers carry their code's
leading character, and the emitted rows are pairwise distinct on M/D/P
identifiers. -/
theorem generate_data_invariant (env : Env) (asOf fuel : Nat) :
    ∀ (n p : Nat) (st : GenState) (rows : List Row) (p1 : Nat)
      (st1 : GenState),
      generate_data env asOf fuel n p st = some (rows, p1, st1) →
      stMono st st1 ∧
      (∀ r ∈ rows, rowFresh st r ∧ rowRecorded st1 r ∧ rowHeads r) ∧
      rows.Pairwise (fun a b => isMDP a → isMDP b →
        a.OrganizationIdentifier ≠ b.OrganizationIdentifier) := by
  intro n
  induction n with
  | zero =>
    intro p st rows p1 st1 h
    simp only [generate_data, Option.some.injEq, Prod.mk.injEq] at h
    obtain ⟨rfl, -, rfl⟩ := h
    exact ⟨stMono_refl st, by simp, by simp⟩
  | succ n ih =>
    intro p st rows p1 st1 h
    unfold generate_data at h
    split at h
    · exact absurd h (by simp)
    · rename_i x r0 pA stA hrow0
      split at h
      · exact absurd h (by simp)
      · rename_i y rs pB stB hrest
        simp only [Option.some.injEq, Prod.mk.injEq] at h
        obtain ⟨rfl, -, rfl⟩ := h
        obtain ⟨hfresh0, hrec0, hheads0, hmono0⟩ :=
          generate_row_state env asOf fuel p st r0 pA stA hrow0
        obtain ⟨hmono1, hall1, hpair1⟩ :=
          ih _ _ _ _ _ hrest
        refine ⟨stMono_trans hmono0 hmono1, ?_, ?_⟩
        · intro r hr
          rcases List.mem_cons.mp hr with rfl | hr2
          · exact ⟨hfresh0, rowRecorded_mono hmono1 hrec0, hheads0⟩
          · obtain ⟨hf, hrec, hh⟩ := hall1 r hr2
            exact ⟨rowFresh_antitone hmono0 hf, hrec, hh⟩
        · rw [List.pairwise_cons]
          refine ⟨?_, hpair1⟩
          intro r hr hM0 hMr
          obtain ⟨hf, -, hh⟩ := hall1 r hr
          exact fresh_recorded_ne hrec0 hf hheads0 hh hM0 hMr

/-- C7: within one generated table, no two rows whose OrganizationCode is in
{M, D, P} carry the same OrganizationIdentifier: uniqueness holds within a
code (via the per-code used-identifier sets) and across the three codes
(their identifiers start with 'M', 'D' and 'P' respectively). -/
theorem generate_data_orgid_unique (env : Env) (asOf fuel n p : Nat)
    (st : GenState) (rows : List Row) (p1 : Nat) (st1 : GenState)
    (h : generate_data env asOf fuel n p st = some (rows, p1, st1)) :
    rows.Pairwise (fun a b => isMDP a → isMDP b →
      a.OrganizationIdentifier ≠ b.OrganizationIdentifier) :=
  (generate_data_invariant env asOf fuel n p st rows p1 st1 h).2.2

def tableRun : Option (List Row × Nat × GenState) :=
  generate_data (envOfSeed 100) 20000 100 3 0 initState

def tableRows : List Row := (tableRun.map (fun x => x.1)).getD []

def tablePos : Nat := (tableRun.map (fun x => x.2.1)).getD 0

def tableSt : GenState := (tableRun.map (fun x => x.2.2)).getD initState

/-- C7 witness: pairwise-distinct M/D/P identifiers on a concrete 3-row
generated table. -/
theorem generate_data_orgid_unique_witness :
    generate_data (envOfSeed 100) 20000 100 3 0 initState =
      some (tableRows, tablePos, tableSt) ∧
    tableRows.Pairwise (fun a b => isMDP a → isMDP b →
      a.OrganizationIdentifier ≠ b.OrganizationIdentifier) :=
  ⟨by decide,
    generate_data_orgid_unique (envOfSeed 100) 20000 100 3 0 initState
      tableRows tablePos tableSt (by decide)⟩

/-! ### The missing-column fault-injection scenario -/

/-- Dropping the two named columns from a generated table always leaves 28
of the 30 generated columns and all rows. -/
theorem dropColumns_scenario (rows : List Row) :
    (dropColumns ["OrganizationTIN", "ContactEmail"] (toTable rows)).cols.length = 28 ∧
    (dropColumns ["OrganizationTIN", "ContactEmail"] (toTable rows)).cells.length =
      rows.length := by
  constructor
  · rfl
  · simp [dropColumns, dropColumn, toTable, headerCols]

/-- `Generate(rowCount=50, seed=100)` followed by dropping OrganizationTIN
and ContactEmail, as in `run_missing_column_scenario`. -/
def c8Table : Option Table :=
  (generate_data (envOfSeed 100) 20000 100 50 0 initState).map
    (fun x => dropColumns ["OrganizationTIN", "ContactEmail"] (toTable x.1))

/-- C8 counterexample: the scenario's result table has 28 columns, not the
26 the claim states (the generated table has 30 columns, not 28). -/
theorem missing_column_scenario_cex :
    c8Table.map (fun t => t.cols.length) = some 28 ∧ (28 : Nat) ≠ 26 :=
  ⟨by decide, by decide⟩

/-- C8 (amended): generating 50 rows with seed 100 and dropping
OrganizationTIN and ContactEmail yields a table with 50 rows and exactly 28
columns (the generator's full column set of 30 minus the 2 dropped). -/
theorem missing_column_scenario_amended :
    c8Table.map (fun t => (t.cells.length, t.cols.length)) = some (50, 28) := by
  decide
